import Mathlib

/-!
Verification of the `wrong_opinions` service: a shallow embedding of the
cache-or-fetch layer, the week aggregate manager, the upstream client error
handling and the MusicBrainz date parsing, together with theorems settling
the specified properties.

Python data is embedded as follows: `str | None` becomes `Option String`,
`datetime.date` becomes a record of numerals validated exactly as CPython's
`datetime.date` constructor validates (year 1..9999, month 1..12, day within
the month, Gregorian leap rule), `int(...)` on strings becomes `pythonInt`
(optional surrounding ASCII whitespace, optional sign, ASCII decimal digits
with single underscores between digits), and CPython ≥3.11's
`date.fromisoformat` on the 10-character inputs the code feeds it becomes
`dateFromisoformat`: the extended calendar layout `YYYY-MM-DD`, the
extended week layout `YYYY-Www-D` (via `fromisocalendar`), and the basic
layouts `YYYYMMDD` / `YYYYWwwD` each followed by two characters the C
parser never inspects, with the `date` constructor validating every
result.
-/

/-- Gregorian leap-year rule as used by `datetime.date`. -/
def isLeapYear (y : Nat) : Bool :=
  y % 4 == 0 && (y % 100 != 0 || y % 400 == 0)

/-- Days in a month, as validated by `datetime.date`. -/
def daysInMonth (y m : Nat) : Nat :=
  if m == 2 then (if isLeapYear y then 29 else 28)
  else if m == 4 || m == 6 || m == 9 || m == 11 then 30
  else 31

/-- A Python `datetime.date` value. -/
structure PyDate where
  year : Nat
  month : Nat
  day : Nat
deriving DecidableEq, Repr

/-- The validation performed by the `datetime.date` constructor
(`MINYEAR = 1`, `MAXYEAR = 9999`). -/
def pyDateValid (y m d : Nat) : Bool :=
  1 ≤ y && y ≤ 9999 && 1 ≤ m && m ≤ 12 && 1 ≤ d && d ≤ daysInMonth y m

/-- `datetime.date(y, m, d)` on `int` arguments: `some` on success, `none`
where CPython raises `ValueError`. -/
def pyDateMk (y m d : Int) : Option PyDate :=
  if 1 ≤ y && 1 ≤ m && 1 ≤ d && pyDateValid y.toNat m.toNat d.toNat then
    some ⟨y.toNat, m.toNat, d.toNat⟩
  else
    none

/-- ASCII decimal digit test (`'0'`..`'9'`). -/
def isDigitChar (c : Char) : Bool :=
  48 ≤ c.toNat && c.toNat ≤ 57

/-- Numeric value of an ASCII digit. -/
def digitVal (c : Char) : Nat := c.toNat - 48

/-- CPython's `_DAYS_IN_MONTH` table (non-leap). -/
def DAYS_IN_MONTH (m : Nat) : Nat :=
  match m with
  | 1 => 31 | 2 => 28 | 3 => 31 | 4 => 30 | 5 => 31 | 6 => 30
  | 7 => 31 | 8 => 31 | 9 => 30 | 10 => 31 | 11 => 30 | 12 => 31
  | _ => 0

/-- CPython's `_DAYS_BEFORE_MONTH` table (non-leap cumulative days). -/
def DAYS_BEFORE_MONTH (m : Nat) : Nat :=
  match m with
  | 1 => 0 | 2 => 31 | 3 => 59 | 4 => 90 | 5 => 120 | 6 => 151
  | 7 => 181 | 8 => 212 | 9 => 243 | 10 => 273 | 11 => 304 | 12 => 334
  | _ => 0

/-- CPython's `_days_before_year`. -/
def daysBeforeYear (y : Nat) : Nat :=
  (y - 1) * 365 + (y - 1) / 4 - (y - 1) / 100 + (y - 1) / 400

/-- `_ymd2ord(year, 1, 1)`: the proleptic-Gregorian ordinal of January
1st (ordinal 1 is 0001-01-01). -/
def jan1Ordinal (y : Nat) : Nat :=
  daysBeforeYear y + 1

/-- CPython's `_ord2ymd`: ordinal day number back to (year, month, day),
for positive ordinals. -/
def ord2ymd (n0 : Nat) : Nat × Nat × Nat :=
  let n := n0 - 1
  let n400 := n / 146097
  let r1 := n % 146097
  let n100 := r1 / 36524
  let r2 := r1 % 36524
  let n4 := r2 / 1461
  let r3 := r2 % 1461
  let n1 := r3 / 365
  let r4 := r3 % 365
  let year := n400 * 400 + 1 + n100 * 100 + n4 * 4 + n1
  if n1 == 4 || n100 == 4 then (year - 1, 12, 31)
  else
    let leap := n1 == 3 && (n4 != 24 || n100 == 3)
    let month := (r4 + 50) / 32
    let preceding := DAYS_BEFORE_MONTH month + (if 2 < month && leap then 1 else 0)
    if r4 < preceding then
      let month2 := month - 1
      let preceding2 :=
        preceding - (DAYS_IN_MONTH month2 + (if month2 == 2 && leap then 1 else 0))
      (year, month2, r4 - preceding2 + 1)
    else
      (year, month, r4 - preceding + 1)

/-- CPython's `_isoweek1monday`: the ordinal of the Monday starting ISO
week 1 of the given year. -/
def isoweek1monday (year : Nat) : Nat :=
  let firstday := jan1Ordinal year
  let firstweekday := (firstday + 6) % 7
  if 3 < firstweekday then firstday - firstweekday + 7
  else firstday - firstweekday

/-- CPython's `date.fromisocalendar` (and the C `iso_to_ymd` behind
`fromisoformat`'s week-date branch): `some` on success, `none` where a
`ValueError` is raised (year outside 1..9999, week outside the year's
valid range, day outside 1..7, or a result outside the date range). -/
def pyDateFromisocalendar (year week day : Nat) : Option PyDate :=
  if !(1 ≤ year && year ≤ 9999) then none
  else if !(1 ≤ week && week ≤ 52) &&
      !(week == 53 && (jan1Ordinal year % 7 == 4 ||
        (jan1Ordinal year % 7 == 3 && isLeapYear year))) then none
  else if !(1 ≤ day && day ≤ 7) then none
  else
    if pyDateValid (ord2ymd (isoweek1monday year + (week - 1) * 7 + (day - 1))).1
        (ord2ymd (isoweek1monday year + (week - 1) * 7 + (day - 1))).2.1
        (ord2ymd (isoweek1monday year + (week - 1) * 7 + (day - 1))).2.2 then
      some ⟨(ord2ymd (isoweek1monday year + (week - 1) * 7 + (day - 1))).1,
        (ord2ymd (isoweek1monday year + (week - 1) * 7 + (day - 1))).2.1,
        (ord2ymd (isoweek1monday year + (week - 1) * 7 + (day - 1))).2.2⟩
    else none

/-- CPython ≥3.11 `date.fromisoformat` on a 10-character input — the only
length `_parse_musicbrainz_date` ever feeds it — as a character list.
Its C parser (`parse_isoformat_date`) accepts exactly four layouts at
this length: extended calendar `YYYY-MM-DD`; extended week `YYYY-Www-D`;
basic week `YYYYWwwD` and basic calendar `YYYYMMDD`, each followed by two
arbitrary characters the parser never inspects. Week layouts go through
`fromisocalendar`; the `date` constructor validates every result.
(Validated branch for branch against CPython 3.11.6; non-ASCII inputs
fail the byte-length check there and the digit tests here alike.) -/
def dateFromisoformatList : List Char → Option PyDate
  | [y1, y2, y3, y4, s1, m1, m2, s2, d1, d2] =>
    if isDigitChar y1 && isDigitChar y2 && isDigitChar y3 && isDigitChar y4 &&
        s1 == '-' && isDigitChar m1 && isDigitChar m2 && s2 == '-' &&
        isDigitChar d1 && isDigitChar d2 then
      if pyDateValid (((digitVal y1 * 10 + digitVal y2) * 10 + digitVal y3) * 10 + digitVal y4)
          (digitVal m1 * 10 + digitVal m2) (digitVal d1 * 10 + digitVal d2) then
        some ⟨((digitVal y1 * 10 + digitVal y2) * 10 + digitVal y3) * 10 + digitVal y4,
          digitVal m1 * 10 + digitVal m2, digitVal d1 * 10 + digitVal d2⟩
      else none
    else if isDigitChar y1 && isDigitChar y2 && isDigitChar y3 && isDigitChar y4 &&
        s1 == '-' && m1 == 'W' && isDigitChar m2 && isDigitChar s2 &&
        d1 == '-' && isDigitChar d2 then
      pyDateFromisocalendar
        (((digitVal y1 * 10 + digitVal y2) * 10 + digitVal y3) * 10 + digitVal y4)
        (digitVal m2 * 10 + digitVal s2) (digitVal d2)
    else if isDigitChar y1 && isDigitChar y2 && isDigitChar y3 && isDigitChar y4 &&
        s1 == 'W' && isDigitChar m1 && isDigitChar m2 && isDigitChar s2 then
      pyDateFromisocalendar
        (((digitVal y1 * 10 + digitVal y2) * 10 + digitVal y3) * 10 + digitVal y4)
        (digitVal m1 * 10 + digitVal m2) (digitVal s2)
    else if isDigitChar y1 && isDigitChar y2 && isDigitChar y3 && isDigitChar y4 &&
        isDigitChar s1 && isDigitChar m1 && isDigitChar m2 && isDigitChar s2 then
      if pyDateValid (((digitVal y1 * 10 + digitVal y2) * 10 + digitVal y3) * 10 + digitVal y4)
          (digitVal s1 * 10 + digitVal m1) (digitVal m2 * 10 + digitVal s2) then
        some ⟨((digitVal y1 * 10 + digitVal y2) * 10 + digitVal y3) * 10 + digitVal y4,
          digitVal s1 * 10 + digitVal m1, digitVal m2 * 10 + digitVal s2⟩
      else none
    else none
  | _ => none

/-- `date.fromisoformat` on a string (the 10-character fragment). -/
def dateFromisoformat (s : String) : Option PyDate :=
  dateFromisoformatList s.data

/-- `_parse_musicbrainz_date` from `api/albums.py`: `None`/empty → `None`;
10 chars → `date.fromisoformat(s)`; 7 chars → `date.fromisoformat(s + "-01")`;
4 chars → `date.fromisoformat(s + "-01-01")`; other lengths → `None`;
a `ValueError` from `fromisoformat` is caught and yields `None`. -/
def parse_musicbrainz_date : Option String → Option PyDate
  | none => none
  | some s =>
    if s = "" then none
    else if s.length == 10 then dateFromisoformat s
    else if s.length == 7 then dateFromisoformat (s ++ "-01")
    else if s.length == 4 then dateFromisoformat (s ++ "-01-01")
    else none

/-- Python ASCII whitespace as stripped by `int(str)`. -/
def isPySpace (c : Char) : Bool :=
  c == ' ' || c == '\t' || c == '\n' || c == '\x0d' ||
  c == '\x0b' || c == '\x0c'

/-- Digit-run parser for `int(str)`: decimal digits with single underscores
allowed only between digits. -/
def digitsRun : Nat → List Char → Option Nat
  | acc, [] => some acc
  | acc, c :: rest =>
    if isDigitChar c then digitsRun (acc * 10 + digitVal c) rest
    else if c == '_' then
      match rest with
      | d :: rest2 =>
        if isDigitChar d then digitsRun (acc * 10 + digitVal d) rest2 else none
      | [] => none
    else none

/-- Leading digit plus digit run, for `int(str)`. -/
def digitsWithUnderscores : List Char → Option Nat
  | [] => none
  | c :: rest => if isDigitChar c then digitsRun (digitVal c) rest else none

/-- Python `int(s)` on a string (base 10): strips surrounding ASCII
whitespace, allows one sign, then decimal digits with single underscores
between digits; `some` on success, `none` where CPython raises
`ValueError`. -/
def pythonInt (s : String) : Option Int :=
  match ((s.data.dropWhile isPySpace).reverse.dropWhile isPySpace).reverse with
  | [] => none
  | c :: rest =>
    if c == '+' then (digitsWithUnderscores rest).map Int.ofNat
    else if c == '-' then (digitsWithUnderscores rest).map (fun n => -(Int.ofNat n))
    else (digitsWithUnderscores (c :: rest)).map Int.ofNat

/-- Python `str.split(sep)` for a one-character separator, on character
lists (empty input yields one empty field, as in Python). -/
def pySplit (sep : Char) : List Char → List (List Char)
  | [] => [[]]
  | c :: rest =>
    let r := pySplit sep rest
    if c == sep then [] :: r
    else
      match r with
      | h :: t => (c :: h) :: t
      | [] => [[c]]

/-- The inline MusicBrainz date parsing block of `add_album_to_week` in
`api/weeks.py`: falsy date → `None`; length 4 → `date(int(s), 1, 1)`;
length 7 → split on `-`, `date(int(p0), int(p1), 1)`; length 10 → split on
`-`, `date(int(p0), int(p1), int(p2))`; `ValueError`/`IndexError` caught,
leaving `None`; other lengths leave `None`. -/
def add_album_parse_date : Option String → Option PyDate
  | none => none
  | some s =>
    if s = "" then none
    else if s.length == 4 then
      match pythonInt s with
      | some y => pyDateMk y 1 1
      | none => none
    else if s.length == 7 then
      match pySplit '-' s.data with
      | p0 :: p1 :: _ =>
        match pythonInt ⟨p0⟩, pythonInt ⟨p1⟩ with
        | some y, some m => pyDateMk y m 1
        | _, _ => none
      | _ => none
    else if s.length == 10 then
      match pySplit '-' s.data with
      | p0 :: p1 :: p2 :: _ =>
        match pythonInt ⟨p0⟩, pythonInt ⟨p1⟩, pythonInt ⟨p2⟩ with
        | some y, some m, some d => pyDateMk y m d
        | _, _, _ => none
      | _ => none
    else none

/-- Zero-padded two-digit decimal rendering (for values below 100). -/
def pad2Chars (n : Nat) : List Char :=
  [Char.ofNat (48 + n / 10), Char.ofNat (48 + n % 10)]

/-- Zero-padded four-digit decimal rendering (for values below 10000). -/
def pad4Chars (n : Nat) : List Char :=
  [Char.ofNat (48 + n / 1000), Char.ofNat (48 + n / 100 % 10),
   Char.ofNat (48 + n / 10 % 10), Char.ofNat (48 + n % 10)]

/-- The `YYYY-MM-DD` rendering of a date, as a character list. -/
def isoRenderChars (d : PyDate) : List Char :=
  pad4Chars d.year ++ '-' :: (pad2Chars d.month ++ '-' :: pad2Chars d.day)

/-- The basic-format `YYYYMMDD` rendering of a date. -/
def basicRenderChars (d : PyDate) : List Char :=
  pad4Chars d.year ++ (pad2Chars d.month ++ pad2Chars d.day)

/-- The documented MusicBrainz digit layouts: `YYYY`, `YYYY-MM`,
`YYYY-MM-DD` (ASCII digits; calendar-valid or not). -/
def mbDigitLayout : List Char → Bool
  | [a, b, c, d] =>
    isDigitChar a && isDigitChar b && isDigitChar c && isDigitChar d
  | [a, b, c, d, e, f, g] =>
    isDigitChar a && isDigitChar b && isDigitChar c && isDigitChar d &&
    e == '-' && isDigitChar f && isDigitChar g
  | [a, b, c, d, e, f, g, h, i, j] =>
    isDigitChar a && isDigitChar b && isDigitChar c && isDigitChar d &&
    e == '-' && isDigitChar f && isDigitChar g && h == '-' &&
    isDigitChar i && isDigitChar j
  | _ => false

/-- `f"{d}"` / `str(d)` rendering of a date, as in
`cached_album.release_date.isoformat()`. -/
def pyDateIsoformat (d : PyDate) : String :=
  String.mk (isoRenderChars d)

/-- `f"{n:02d}"` formatting of a natural number. -/
def pad2Str (n : Nat) : String :=
  if n < 10 then "0" ++ toString n else toString n

/-- The authenticated principal (`CurrentUser`): `users.id` and username. -/
structure UserP where
  id : Nat
  username : String
deriving DecidableEq, Repr

/-- A MusicBrainz artist object (`schemas/external.py:MusicBrainzArtist`). -/
structure MBArtist where
  id : String
  name : String
  sort_name : Option String
  disambiguation : Option String
  type : Option String
  country : Option String
deriving DecidableEq, Repr

/-- A MusicBrainz artist credit (`MusicBrainzArtistCredit`). -/
structure MBArtistCredit where
  name : String
  joinphrase : Option String
  artist : Option MBArtist
deriving DecidableEq, Repr

/-- `MusicBrainzReleaseDetails`. -/
structure MBReleaseDetails where
  id : String
  title : String
  status : Option String
  country : Option String
  date : Option String
  artist_credit : List MBArtistCredit
deriving DecidableEq, Repr

/-- The `artist_name` property: concatenate credited names with their
truthy join phrases; an empty credit list or an empty result is `None`. -/
def MBReleaseDetails.artist_name (r : MBReleaseDetails) : Option String :=
  if r.artist_credit = [] then none
  else
    let result := r.artist_credit.foldl
      (fun acc credit =>
        acc ++ credit.name ++
          (match credit.joinphrase with
           | some j => j
           | none => "")) ""
    if result = "" then none else some result

/-- The value of Python's `x or "Unknown Artist"` on an optional string
(`None` and `""` are falsy). -/
def orUnknownArtist (x : Option String) : String :=
  match x with
  | some s => if s = "" then "Unknown Artist" else s
  | none => "Unknown Artist"

/-- The value bound to `artist_name` in `add_album_to_week`: the sentinel
for an empty credit list, otherwise the raw `artist_credit` value itself
(a list, not a string — a latent type slip in the source that the
week-slot claims never inspect). -/
inductive ArtistField
  | str (s : String)
  | credits (l : List MBArtistCredit)
deriving DecidableEq, Repr

/-- `TMDBMovieDetails` (`schemas/external.py`); `vote_average` is carried
as an exact rational since the embedded code only copies it. -/
structure TMDBMovieDetails where
  id : Nat
  title : String
  original_title : Option String
  release_date : Option PyDate
  poster_path : Option String
  backdrop_path : Option String
  overview : Option String
  runtime : Option Int
  vote_average : Rat
  vote_count : Int
  status : Option String
  tagline : Option String
  imdb_id : Option String
deriving DecidableEq, Repr

/-- `TMDBCastMember`. -/
structure TMDBCastMember where
  id : Nat
  name : String
  character : Option String
  order : Int
  profile_path : Option String
  known_for_department : Option String
deriving DecidableEq, Repr

/-- `TMDBCrewMember`. -/
structure TMDBCrewMember where
  id : Nat
  name : String
  department : Option String
  job : Option String
  profile_path : Option String
  known_for_department : Option String
deriving DecidableEq, Repr

/-- `TMDBCreditsResponse`. -/
structure TMDBCreditsResponse where
  id : Nat
  cast : List TMDBCastMember
  crew : List TMDBCrewMember
deriving DecidableEq, Repr

/-- The outcome of an upstream client call as seen by an API handler:
the parsed entity, or one of the three normalized client errors
(`NotFoundError`, `RateLimitError`, `APIError`). -/
inductive FetchResult (α : Type)
  | ok (value : α)
  | notFound
  | rateLimited (retryAfter : Option Int)
  | failure (statusCode : Option Nat) (message : String)
deriving DecidableEq, Repr

/-- The outcome of an API handler: a successful response value, an
`HTTPException(status, detail)`, or a propagated client error (handled by
the global exception handlers outside these functions). -/
inductive HandlerResult (α : Type)
  | ok (value : α)
  | httpError (status : Nat) (detail : String)
  | rateLimitedErr (retryAfter : Option Int)
  | upstreamErr (statusCode : Option Nat) (message : String)
deriving DecidableEq, Repr

/-- Cached `movies` row (`models/movie.py:Movie`). -/
structure MovieRow where
  id : Nat
  tmdb_id : Nat
  title : String
  original_title : Option String
  release_date : Option PyDate
  poster_path : Option String
  overview : Option String
  cached_at : Nat
deriving DecidableEq, Repr

/-- Cached `albums` row (`models/album.py:Album`). -/
structure AlbumRow where
  id : Nat
  musicbrainz_id : String
  title : String
  artist : ArtistField
  release_date : Option PyDate
  cover_art_url : Option String
  cached_at : Nat
deriving DecidableEq, Repr

/-- Cached `people` row (`models/person.py:Person`). -/
structure PersonRow where
  id : Nat
  tmdb_id : Nat
  name : String
  profile_path : Option String
  known_for_department : Option String
  cached_at : Nat
deriving DecidableEq, Repr

/-- Cached `artists` row (`models/artist.py:Artist`). -/
structure ArtistRow where
  id : Nat
  musicbrainz_id : String
  name : String
  sort_name : Option String
  disambiguation : Option String
  artist_type : Option String
  country : Option String
  cached_at : Nat
deriving DecidableEq, Repr

/-- `movie_cast` association row. -/
structure MovieCastRow where
  movie_id : Nat
  person_id : Nat
  character : Option String
  order : Int
  cached_at : Nat
deriving DecidableEq, Repr

/-- `movie_crew` association row. -/
structure MovieCrewRow where
  movie_id : Nat
  person_id : Nat
  department : Option String
  job : Option String
  cached_at : Nat
deriving DecidableEq, Repr

/-- `album_artist` association row. -/
structure AlbumArtistRow where
  album_id : Nat
  artist_id : Nat
  join_phrase : Option String
  order : Nat
  cached_at : Nat
deriving DecidableEq, Repr

/-- `weeks` row (`models/week.py:Week`, with `user_id` nullable per the
`b2c3d4e5f6g7` migration). -/
structure WeekRow where
  id : Nat
  user_id : Option Nat
  year : Nat
  week_number : Nat
  notes : Option String
  created_at : Nat
  updated_at : Nat
deriving DecidableEq, Repr

/-- `week_movies` association row. -/
structure WeekMovieRow where
  id : Nat
  week_id : Nat
  movie_id : Nat
  position : Nat
  added_at : Nat
deriving DecidableEq, Repr

/-- `week_albums` association row. -/
structure WeekAlbumRow where
  id : Nat
  week_id : Nat
  album_id : Nat
  position : Nat
  added_at : Nat
deriving DecidableEq, Repr

/-- TMDB image URL base (`TMDBClient.IMAGE_BASE_URL`). -/
def IMAGE_BASE_URL : String := "https://image.tmdb.org/t/p"

/-- `TMDBClient.POSTER_SIZES`. -/
def POSTER_SIZES : List String := ["w92", "w154", "w185", "w342", "w500", "w780", "original"]

/-- `TMDBClient.BACKDROP_SIZES`. -/
def BACKDROP_SIZES : List String := ["w300", "w780", "w1280", "original"]

/-- `TMDBClient.get_poster_url` (default size "w342"; falsy path → None;
unrecognized size falls back to "w342"). -/
def get_poster_url (poster_path : Option String) (size : String) : Option String :=
  match poster_path with
  | none => none
  | some p =>
    if p = "" then none
    else
      let sz := if POSTER_SIZES.contains size then size else "w342"
      some (IMAGE_BASE_URL ++ "/" ++ sz ++ p)

/-- `TMDBClient.get_backdrop_url` (default size "w780"). -/
def get_backdrop_url (backdrop_path : Option String) (size : String) : Option String :=
  match backdrop_path with
  | none => none
  | some p =>
    if p = "" then none
    else
      let sz := if BACKDROP_SIZES.contains size then size else "w780"
      some (IMAGE_BASE_URL ++ "/" ++ sz ++ p)

/-- `MusicBrainzClient.get_cover_art_front_url`. -/
def get_cover_art_front_url (release_id : String) : String :=
  "https://coverartarchive.org/release/" ++ release_id ++ "/front"

/-- The `MovieDetails` response schema. -/
structure MovieDetailsResp where
  tmdb_id : Nat
  title : String
  original_title : Option String
  release_date : Option PyDate
  poster_url : Option String
  backdrop_url : Option String
  overview : Option String
  runtime : Option Int
  vote_average : Rat
  vote_count : Int
  tagline : Option String
  status : Option String
  imdb_id : Option String
  cached : Bool
deriving DecidableEq, Repr

/-- The `AlbumDetails` response schema (its `release_date` is a raw string
and its `artist` is optional). -/
structure AlbumDetailsResp where
  musicbrainz_id : String
  title : String
  artist : Option ArtistField
  release_date : Option String
  country : Option String
  status : Option String
  cover_art_url : Option String
  cached : Bool
deriving DecidableEq, Repr

/-- `GET /movies/{tmdb_id}` (`api/movies.py:get_movie`): cache lookup by
`tmdb_id`; on a hit, answer from the row with the uncached fields nulled
and `cached=True`; on a miss, call `tmdb_client.get_movie`, persist a new
row and answer with `cached=False`; `NotFoundError` becomes a 404 and
other client errors propagate. The returned `Nat` counts upstream
catalog calls. -/
def get_movie (db : List MovieRow) (fetch : Nat → FetchResult TMDBMovieDetails)
    (tmdbId : Nat) (now freshId : Nat) :
    HandlerResult MovieDetailsResp × List MovieRow × Nat :=
  match db.find? (fun m => m.tmdb_id == tmdbId) with
  | some cached_movie =>
    (.ok { tmdb_id := cached_movie.tmdb_id, title := cached_movie.title,
           original_title := cached_movie.original_title,
           release_date := cached_movie.release_date,
           poster_url := get_poster_url cached_movie.poster_path "w342",
           backdrop_url := none, overview := cached_movie.overview,
           runtime := none, vote_average := 0, vote_count := 0,
           tagline := none, status := none, imdb_id := none,
           cached := true },
     db, 0)
  | none =>
    match fetch tmdbId with
    | .ok movie =>
      let new_movie : MovieRow :=
        { id := freshId, tmdb_id := movie.id, title := movie.title,
          original_title := movie.original_title,
          release_date := movie.release_date,
          poster_path := movie.poster_path, overview := movie.overview,
          cached_at := now }
      (.ok { tmdb_id := movie.id, title := movie.title,
             original_title := movie.original_title,
             release_date := movie.release_date,
             poster_url := get_poster_url movie.poster_path "w342",
             backdrop_url := get_backdrop_url movie.backdrop_path "w780",
             overview := movie.overview, runtime := movie.runtime,
             vote_average := movie.vote_average,
             vote_count := movie.vote_count, tagline := movie.tagline,
             status := movie.status, imdb_id := movie.imdb_id,
             cached := false },
       db ++ [new_movie], 1)
    | .notFound => (.httpError 404 "Movie not found", db, 1)
    | .rateLimited r => (.rateLimitedErr r, db, 1)
    | .failure st msg => (.upstreamErr st msg, db, 1)

/-- `GET /albums/{musicbrainz_id}` (`api/albums.py:get_album`), analogous
to `get_movie`; on a hit, `country` and `status` are served as null and
the stored release date is re-rendered with `isoformat()`. -/
def get_album (db : List AlbumRow) (fetch : String → FetchResult MBReleaseDetails)
    (mbid : String) (now freshId : Nat) :
    HandlerResult AlbumDetailsResp × List AlbumRow × Nat :=
  match db.find? (fun a => a.musicbrainz_id == mbid) with
  | some cached_album =>
    (.ok { musicbrainz_id := cached_album.musicbrainz_id,
           title := cached_album.title,
           artist := some cached_album.artist,
           release_date := cached_album.release_date.map pyDateIsoformat,
           country := none, status := none,
           cover_art_url := cached_album.cover_art_url,
           cached := true },
     db, 0)
  | none =>
    match fetch mbid with
    | .ok release =>
      let new_album : AlbumRow :=
        { id := freshId, musicbrainz_id := release.id, title := release.title,
          artist := .str (orUnknownArtist release.artist_name),
          release_date := parse_musicbrainz_date release.date,
          cover_art_url := some (get_cover_art_front_url release.id),
          cached_at := now }
      (.ok { musicbrainz_id := release.id, title := release.title,
             artist := release.artist_name.map .str,
             release_date := release.date,
             country := release.country, status := release.status,
             cover_art_url := some (get_cover_art_front_url release.id),
             cached := false },
       db ++ [new_album], 1)
    | .notFound => (.httpError 404 "Album not found", db, 1)
    | .rateLimited r => (.rateLimitedErr r, db, 1)
    | .failure st msg => (.upstreamErr st msg, db, 1)

/-- `week.user`: the owner row loaded through the nullable `user_id`
foreign key. -/
def weekOwner (users : List UserP) (w : WeekRow) : Option UserP :=
  match w.user_id with
  | none => none
  | some uid => users.find? (fun u => u.id == uid)

/-- The `WeekResponse` schema (as produced by `week_to_response`). -/
structure WeekResponse where
  id : Nat
  user_id : Option Nat
  owner : Option UserP
  year : Nat
  week_number : Nat
  notes : Option String
  created_at : Nat
  updated_at : Nat
deriving DecidableEq, Repr

/-- `POST /weeks` (`api/weeks.py:create_week`): a week for the same
`(year, week_number)` pair anywhere in the table — whoever owns it — is a
409 whose detail names the existing owner (or "unknown" for an ownerless
week); otherwise a new week owned by the requester is inserted with
`created_at = updated_at = now`. -/
def create_week (users : List UserP) (db : List WeekRow) (cu : UserP)
    (year wn : Nat) (notes : Option String) (now freshId : Nat) :
    HandlerResult WeekResponse × List WeekRow :=
  match db.find? (fun w => w.year == year && w.week_number == wn) with
  | some existing_week =>
    let owner_name :=
      match weekOwner users existing_week with
      | some u => u.username
      | none => "unknown"
    (.httpError 409
      ("Week " ++ toString year ++ "-W" ++ pad2Str wn ++
        " already exists (created by " ++ owner_name ++ ")"), db)
  | none =>
    let new_week : WeekRow :=
      { id := freshId, user_id := some cu.id, year := year, week_number := wn,
        notes := notes, created_at := now, updated_at := now }
    (.ok { id := freshId, user_id := some cu.id, owner := some cu,
           year := year, week_number := wn, notes := notes,
           created_at := now, updated_at := now },
     db ++ [new_week])

/-- The relational state the week-slot endpoints read and write. -/
structure WeeksSt where
  weeks : List WeekRow
  movies : List MovieRow
  albums : List AlbumRow
  weekMovies : List WeekMovieRow
  weekAlbums : List WeekAlbumRow
deriving DecidableEq, Repr

/-- Replace the week row with the given id (the ORM mutation
`week.updated_at = now`). -/
def setWeekUpdatedAt (weeks : List WeekRow) (weekId now : Nat) : List WeekRow :=
  weeks.map (fun w => if w.id == weekId then { w with updated_at := now } else w)

/-- `POST /weeks/{week_id}/movies` (`add_movie_to_week`): 404 if the week
is absent, 403 if the requester is not the owner, 409 if the `(week,
position)` film slot is occupied; otherwise resolve the movie through the
cache (fetching and persisting on a miss, with `NotFoundError` → 404 and
other client errors → HTTP with their status or 500), insert the slot row
and bump the week's `updated_at`. The `Nat` counts upstream calls. -/
def add_movie_to_week (st : WeeksSt) (fetch : Nat → FetchResult TMDBMovieDetails)
    (cu : UserP) (weekId tmdbId position : Nat) (now movieFreshId slotFreshId : Nat) :
    HandlerResult (Nat × Nat × MovieRow) × WeeksSt × Nat :=
  match st.weeks.find? (fun w => w.id == weekId) with
  | none => (.httpError 404 "Week not found", st, 0)
  | some week =>
    if week.user_id ≠ some cu.id then
      (.httpError 403 "Only the owner can modify this week", st, 0)
    else
      match st.weekMovies.find? (fun wm => wm.week_id == weekId && wm.position == position) with
      | some _ =>
        (.httpError 409 ("Position " ++ toString position ++ " is already occupied"), st, 0)
      | none =>
        match st.movies.find? (fun m => m.tmdb_id == tmdbId) with
        | some movie =>
          let wm : WeekMovieRow :=
            { id := slotFreshId, week_id := weekId, movie_id := movie.id,
              position := position, added_at := now }
          (.ok (weekId, position, movie),
           { st with weekMovies := st.weekMovies ++ [wm],
                     weeks := setWeekUpdatedAt st.weeks weekId now }, 0)
        | none =>
          match fetch tmdbId with
          | .ok tmdb_movie =>
            let movie : MovieRow :=
              { id := movieFreshId, tmdb_id := tmdb_movie.id,
                title := tmdb_movie.title,
                original_title := tmdb_movie.original_title,
                release_date := tmdb_movie.release_date,
                poster_path := tmdb_movie.poster_path,
                overview := tmdb_movie.overview, cached_at := now }
            let wm : WeekMovieRow :=
              { id := slotFreshId, week_id := weekId, movie_id := movie.id,
                position := position, added_at := now }
            (.ok (weekId, position, movie),
             { st with movies := st.movies ++ [movie],
                       weekMovies := st.weekMovies ++ [wm],
                       weeks := setWeekUpdatedAt st.weeks weekId now }, 1)
          | .notFound => (.httpError 404 "Movie not found in TMDB", st, 1)
          | .rateLimited _ => (.httpError 429 "Rate limit exceeded", st, 1)
          | .failure stc msg =>
            (.httpError (stc.getD 500) msg, st, 1)

/-- `POST /weeks/{week_id}/albums` (`add_album_to_week`), the music-slot
analog of `add_movie_to_week`, with the inline date parsing and the raw
`artist_credit` binding for the freshly cached album row. -/
def add_album_to_week (st : WeeksSt) (fetch : String → FetchResult MBReleaseDetails)
    (cu : UserP) (weekId : Nat) (mbid : String) (position : Nat)
    (now albumFreshId slotFreshId : Nat) :
    HandlerResult (Nat × Nat × AlbumRow) × WeeksSt × Nat :=
  match st.weeks.find? (fun w => w.id == weekId) with
  | none => (.httpError 404 "Week not found", st, 0)
  | some week =>
    if week.user_id ≠ some cu.id then
      (.httpError 403 "Only the owner can modify this week", st, 0)
    else
      match st.weekAlbums.find? (fun wa => wa.week_id == weekId && wa.position == position) with
      | some _ =>
        (.httpError 409 ("Position " ++ toString position ++ " is already occupied"), st, 0)
      | none =>
        match st.albums.find? (fun a => a.musicbrainz_id == mbid) with
        | some album =>
          let wa : WeekAlbumRow :=
            { id := slotFreshId, week_id := weekId, album_id := album.id,
              position := position, added_at := now }
          (.ok (weekId, position, album),
           { st with weekAlbums := st.weekAlbums ++ [wa],
                     weeks := setWeekUpdatedAt st.weeks weekId now }, 0)
        | none =>
          match fetch mbid with
          | .ok mb_release =>
            let artist_name : ArtistField :=
              match mb_release.artist_credit with
              | [] => .str "Unknown Artist"
              | l => .credits l
            let album : AlbumRow :=
              { id := albumFreshId, musicbrainz_id := mb_release.id,
                title := mb_release.title, artist := artist_name,
                release_date := add_album_parse_date mb_release.date,
                cover_art_url := some (get_cover_art_front_url mbid),
                cached_at := now }
            let wa : WeekAlbumRow :=
              { id := slotFreshId, week_id := weekId, album_id := album.id,
                position := position, added_at := now }
            (.ok (weekId, position, album),
             { st with albums := st.albums ++ [album],
                       weekAlbums := st.weekAlbums ++ [wa],
                       weeks := setWeekUpdatedAt st.weeks weekId now }, 1)
          | .notFound => (.httpError 404 "Album not found in MusicBrainz", st, 1)
          | .rateLimited _ => (.httpError 429 "Rate limit exceeded", st, 1)
          | .failure stc msg =>
            (.httpError (stc.getD 500) msg, st, 1)

/-- `PATCH /weeks/{week_id}` (`update_week`): 404 / 403 checks, then the
notes and `updated_at` change only when notes were provided. -/
def update_week (users : List UserP) (st : WeeksSt) (cu : UserP)
    (weekId : Nat) (notes : Option String) (now : Nat) :
    HandlerResult WeekResponse × WeeksSt :=
  match st.weeks.find? (fun w => w.id == weekId) with
  | none => (.httpError 404 "Week not found", st)
  | some week =>
    if week.user_id ≠ some cu.id then
      (.httpError 403 "Only the owner can modify this week", st)
    else
      let week2 :=
        match notes with
        | some n => { week with notes := some n, updated_at := now }
        | none => week
      (.ok { id := week2.id, user_id := week2.user_id,
             owner := weekOwner users week2, year := week2.year,
             week_number := week2.week_number, notes := week2.notes,
             created_at := week2.created_at, updated_at := week2.updated_at },
       { st with weeks := st.weeks.map (fun w => if w.id == weekId then week2 else w) })

/-- `DELETE /weeks/{week_id}` (`delete_week`): 404 / 403 checks, then the
week row is deleted and its slots cascade. -/
def delete_week (st : WeeksSt) (cu : UserP) (weekId : Nat) :
    HandlerResult Unit × WeeksSt :=
  match st.weeks.find? (fun w => w.id == weekId) with
  | none => (.httpError 404 "Week not found", st)
  | some week =>
    if week.user_id ≠ some cu.id then
      (.httpError 403 "Only the owner can delete this week", st)
    else
      (.ok (),
       { st with weeks := st.weeks.filter (fun w => !(w.id == weekId)),
                 weekMovies := st.weekMovies.filter (fun wm => !(wm.week_id == weekId)),
                 weekAlbums := st.weekAlbums.filter (fun wa => !(wa.week_id == weekId)) })

/-- `DELETE /weeks/{week_id}/movies/{position}` (`remove_movie_from_week`):
400 for a position outside {1,2}, then 404 / 403 checks, 404 for an empty
slot, else delete the slot row and bump `updated_at`. -/
def remove_movie_from_week (st : WeeksSt) (cu : UserP) (weekId position now : Nat) :
    HandlerResult Unit × WeeksSt :=
  if position ≠ 1 ∧ position ≠ 2 then (.httpError 400 "Position must be 1 or 2", st)
  else
    match st.weeks.find? (fun w => w.id == weekId) with
    | none => (.httpError 404 "Week not found", st)
    | some week =>
      if week.user_id ≠ some cu.id then
        (.httpError 403 "Only the owner can modify this week", st)
      else
        match st.weekMovies.find? (fun wm => wm.week_id == weekId && wm.position == position) with
        | none =>
          (.httpError 404 ("No movie found at position " ++ toString position), st)
        | some week_movie =>
          (.ok (),
           { st with
               weekMovies := st.weekMovies.filter (fun wm => !(wm.id == week_movie.id)),
               weeks := setWeekUpdatedAt st.weeks weekId now })

/-- `DELETE /weeks/{week_id}/albums/{position}` (`remove_album_from_week`),
the music analog. -/
def remove_album_from_week (st : WeeksSt) (cu : UserP) (weekId position now : Nat) :
    HandlerResult Unit × WeeksSt :=
  if position ≠ 1 ∧ position ≠ 2 then (.httpError 400 "Position must be 1 or 2", st)
  else
    match st.weeks.find? (fun w => w.id == weekId) with
    | none => (.httpError 404 "Week not found", st)
    | some week =>
      if week.user_id ≠ some cu.id then
        (.httpError 403 "Only the owner can modify this week", st)
      else
        match st.weekAlbums.find? (fun wa => wa.week_id == weekId && wa.position == position) with
        | none =>
          (.httpError 404 ("No album found at position " ++ toString position), st)
        | some week_album =>
          (.ok (),
           { st with
               weekAlbums := st.weekAlbums.filter (fun wa => !(wa.id == week_album.id)),
               weeks := setWeekUpdatedAt st.weeks weekId now })

/-- The state touched by `get_album_credits`. -/
structure AlbumCreditsSt where
  albums : List AlbumRow
  artists : List ArtistRow
  albumArtists : List AlbumArtistRow
deriving DecidableEq, Repr

/-- The get-or-create step for an `Artist` row keyed by its MusicBrainz
id, from the fetch branch of `get_album_credits`. Returns the row to
associate, the state, and the next fresh id. -/
def findOrCreateArtist (st : AlbumCreditsSt) (a : MBArtist) (now nextId : Nat) :
    ArtistRow × AlbumCreditsSt × Nat :=
  match st.artists.find? (fun ar => ar.musicbrainz_id == a.id) with
  | some artist => (artist, st, nextId)
  | none =>
    let artist : ArtistRow :=
      { id := nextId, musicbrainz_id := a.id, name := a.name,
        sort_name := a.sort_name, disambiguation := a.disambiguation,
        artist_type := a.type, country := a.country, cached_at := now }
    (artist, { st with artists := st.artists ++ [artist] }, nextId + 1)

/-- The persistence loop of `get_album_credits` over
`enumerate(release.artist_credit[:limit])` (the caller passes the
truncated list): credits without full artist info are skipped while the
`enumerate` index keeps counting; each surviving credit stores one
`album_artist` row carrying that index as its `order`. -/
def cacheArtistCredits (albumId now : Nat) :
    Nat → Nat → List MBArtistCredit → AlbumCreditsSt → AlbumCreditsSt
  | _, _, [], st => st
  | idx, nextId, credit :: rest, st =>
    match credit.artist with
    | none => cacheArtistCredits albumId now (idx + 1) nextId rest st
    | some a =>
      let (artist, st1, nextId1) := findOrCreateArtist st a now nextId
      let row : AlbumArtistRow :=
        { album_id := albumId, artist_id := artist.id,
          join_phrase := credit.joinphrase, order := idx, cached_at := now }
      cacheArtistCredits albumId now (idx + 1) nextId1 rest
        { st1 with albumArtists := st1.albumArtists ++ [row] }

/-- The fetch-and-persist branch of `GET /albums/{id}/credits`
(`api/albums.py:get_album_credits`, upstream path): the credit list is
sliced to `limit` and fed to the persistence loop. -/
def get_album_credits_fetch (st : AlbumCreditsSt) (albumId : Nat)
    (credits : List MBArtistCredit) (limit now nextId : Nat) : AlbumCreditsSt :=
  cacheArtistCredits albumId now 0 nextId (credits.take limit) st

/-- The state touched by `get_movie_credits`. -/
structure MovieCreditsSt where
  movies : List MovieRow
  people : List PersonRow
  movieCast : List MovieCastRow
  movieCrew : List MovieCrewRow
deriving DecidableEq, Repr

/-- The get-or-create step for a `Person` row keyed by its TMDB id, from
the fetch branch of `get_movie_credits`. -/
def findOrCreatePerson (st : MovieCreditsSt) (tmdbId : Nat) (name : String)
    (profile_path known_for_department : Option String) (now nextId : Nat) :
    PersonRow × MovieCreditsSt × Nat :=
  match st.people.find? (fun p => p.tmdb_id == tmdbId) with
  | some person => (person, st, nextId)
  | none =>
    let person : PersonRow :=
      { id := nextId, tmdb_id := tmdbId, name := name,
        profile_path := profile_path,
        known_for_department := known_for_department, cached_at := now }
    (person, { st with people := st.people ++ [person] }, nextId + 1)

/-- The cast persistence loop of `get_movie_credits` (the caller passes
`credits.cast[:limit]`): one `movie_cast` row per member, carrying the
upstream `order` field. -/
def cacheCastMembers (movieId now : Nat) :
    Nat → List TMDBCastMember → MovieCreditsSt → MovieCreditsSt × Nat
  | nextId, [], st => (st, nextId)
  | nextId, cast_data :: rest, st =>
    let (person, st1, nextId1) :=
      findOrCreatePerson st cast_data.id cast_data.name cast_data.profile_path
        cast_data.known_for_department now nextId
    let row : MovieCastRow :=
      { movie_id := movieId, person_id := person.id,
        character := cast_data.character, order := cast_data.order,
        cached_at := now }
    cacheCastMembers movieId now nextId1 rest
      { st1 with movieCast := st1.movieCast ++ [row] }

/-- The crew persistence loop of `get_movie_credits` (the caller passes
the filtered, truncated crew list): one `movie_crew` row per member. -/
def cacheCrewMembers (movieId now : Nat) :
    Nat → List TMDBCrewMember → MovieCreditsSt → MovieCreditsSt × Nat
  | nextId, [], st => (st, nextId)
  | nextId, crew_data :: rest, st =>
    let (person, st1, nextId1) :=
      findOrCreatePerson st crew_data.id crew_data.name crew_data.profile_path
        crew_data.known_for_department now nextId
    let row : MovieCrewRow :=
      { movie_id := movieId, person_id := person.id,
        department := crew_data.department, job := crew_data.job,
        cached_at := now }
    cacheCrewMembers movieId now nextId1 rest
      { st1 with movieCrew := st1.movieCrew ++ [row] }

/-- The crew job allow-list of `get_movie_credits` (`key_jobs`). -/
def key_jobs : List String :=
  ["Director", "Writer", "Screenplay", "Composer", "Producer", "Cinematography"]

/-- Python's `c.job in key_jobs` (a `None` job is in no string set). -/
def jobAllowed (job : Option String) : Bool :=
  match job with
  | some j => key_jobs.contains j
  | none => false

/-- The fetch-and-persist branch of `GET /movies/{id}/credits`
(`api/movies.py:get_movie_credits`, upstream path): cast is sliced to
`limit` unfiltered; crew is filtered to `key_jobs` first and the filtered
list sliced to `limit`; both lists are then persisted in order. -/
def get_movie_credits_fetch (st : MovieCreditsSt) (movieId : Nat)
    (credits : TMDBCreditsResponse) (limit now nextId : Nat) : MovieCreditsSt :=
  let (st1, nextId1) := cacheCastMembers movieId now nextId (credits.cast.take limit) st
  let filtered_crew := (credits.crew.filter (fun c => jobAllowed c.job)).take limit
  (cacheCrewMembers movieId now nextId1 filtered_crew st1).1

/-- An `httpx.Response` as consumed by `BaseAPIClient._handle_response`:
status code, the raw `Retry-After` header, the body text and the outcome
of `.json()` (`Except.error` models the `ValueError` of a malformed
body). -/
structure PyResponse (β : Type) where
  status_code : Nat
  retry_after_header : Option String
  text : String
  json_body : Except String β
deriving Repr

/-- What a call through `BaseAPIClient._request` does from the caller's
point of view: a parsed body, one of the three normalized client
exceptions, or an exception that escapes the normalization. -/
inductive PyOutcome (β : Type)
  | ok (value : β)
  | notFoundError
  | rateLimitError (retryAfter : Option Int)
  | apiError (message : String) (statusCode : Option Nat)
  | uncaughtValueError
deriving DecidableEq, Repr

/-- `BaseAPIClient._handle_response`: 404 → `NotFoundError`; 429 →
`RateLimitError(int(header) if header else None)` — where a non-integer
header makes `int` raise an uncaught `ValueError`; other `>= 400` →
`APIError` with the status code; otherwise the parsed JSON, with a
malformed body becoming an `APIError` without a status code. -/
def handle_response {β : Type} (r : PyResponse β) : PyOutcome β :=
  if r.status_code == 404 then .notFoundError
  else if r.status_code == 429 then
    match r.retry_after_header with
    | none => .rateLimitError none
    | some s =>
      if s = "" then .rateLimitError none
      else
        match pythonInt s with
        | some n => .rateLimitError (some n)
        | none => .uncaughtValueError
  else if 400 ≤ r.status_code then
    .apiError ("API error: " ++ r.text) (some r.status_code)
  else
    match r.json_body with
    | .ok b => .ok b
    | .error e => .apiError ("Invalid JSON response: " ++ e) none

/-- The transport-level outcome of `client.request(...)` inside
`BaseAPIClient._request`. -/
inductive Transport (β : Type)
  | response (r : PyResponse β)
  | timeoutExc (message : String)
  | requestExc (message : String)
deriving Repr

/-- `BaseAPIClient._request` after the rate-limit wait: transport
exceptions are normalized to `APIError` without a status code, and a
received response goes through `_handle_response`. -/
def client_request {β : Type} (t : Transport β) : PyOutcome β :=
  match t with
  | .timeoutExc m => .apiError ("Request timed out: " ++ m) none
  | .requestExc m => .apiError ("Request failed: " ++ m) none
  | .response r => handle_response r

/-- `BaseAPIClient._wait_for_rate_limit` on an idealized monotone clock:
given the stored `_last_request_time` and the time the call reaches the
limiter, return the time the request is issued and the new stored time.
With a positive delay the call sleeps out the remainder and records the
post-sleep clock; with a non-positive delay it does nothing at all. -/
def rate_limit_step (delay last arrival : Rat) : Rat × Rat :=
  if 0 < delay then
    if arrival - last < delay then (last + delay, last + delay)
    else (arrival, arrival)
  else (arrival, last)

/-- Issue times of a sequence of calls through one client instance, given
the times each call reaches the limiter (`_last_request_time` starts at
0.0). -/
def issueTimes (delay : Rat) : Rat → List Rat → List Rat
  | _, [] => []
  | last, arrival :: rest =>
    let p := rate_limit_step delay last arrival
    p.1 :: issueTimes delay p.2 rest

/-- `MusicBrainzClient.__init__` passes `rate_limit_delay=1.0`. -/
def musicbrainz_rate_limit_delay : Rat := 1

/-- `TMDBClient.__init__` leaves `rate_limit_delay` at the base default
`0.0`. -/
def tmdb_rate_limit_delay : Rat := 0

/-- The storage uniqueness constraint `uq_week_movie_position`: at most
one film slot per `(week_id, position)`. -/
def filmSlotsConsistent (l : List WeekMovieRow) : Prop :=
  l.Pairwise (fun x y => (x.week_id, x.position) ≠ (y.week_id, y.position))

/-- The storage uniqueness constraint `uq_week_album_position`: at most
one music slot per `(week_id, position)`. -/
def musicSlotsConsistent (l : List WeekAlbumRow) : Prop :=
  l.Pairwise (fun x y => (x.week_id, x.position) ≠ (y.week_id, y.position))

theorem isDigitChar_bounds {c : Char} (h : isDigitChar c = true) :
    48 ≤ c.toNat ∧ c.toNat ≤ 57 := by
  simpa [isDigitChar, Bool.and_eq_true, decide_eq_true_eq] using h

theorem digit_ne_dash {c : Char} (h : isDigitChar c = true) : (c == '-') = false := by
  cases hb : (c == '-') with
  | false => rfl
  | true => exact absurd h (by rw [show c = '-' from beq_iff_eq.mp hb]; decide)

theorem digit_ne_plus {c : Char} (h : isDigitChar c = true) : (c == '+') = false := by
  cases hb : (c == '+') with
  | false => rfl
  | true => exact absurd h (by rw [show c = '+' from beq_iff_eq.mp hb]; decide)

theorem digit_not_space {c : Char} (h : isDigitChar c = true) : isPySpace c = false := by
  cases hs : isPySpace c with
  | false => rfl
  | true =>
    exfalso
    simp only [isPySpace, Bool.or_eq_true, beq_iff_eq] at hs
    rcases hs with ((((rfl | rfl) | rfl) | rfl) | rfl) | rfl <;> exact absurd h (by decide)

/-- A successful `fromisocalendar` always passed the final `date`
constructor's calendar validation. -/
theorem pyDateFromisocalendar_valid {y w d : Nat} {dt : PyDate}
    (h : pyDateFromisocalendar y w d = some dt) :
    pyDateValid dt.year dt.month dt.day = true := by
  unfold pyDateFromisocalendar at h
  split at h
  · cases h
  split at h
  · cases h
  split at h
  · cases h
  split at h
  next hvalid =>
    cases h
    exact hvalid
  next => cases h

/-- Inversion of the 10-character `date.fromisoformat`: a successful
parse came from one of the four accepted layouts, with the result pinned
to the digits (calendar layouts) or to `fromisocalendar` (week
layouts). -/
theorem dateFromisoformatList_inv {l : List Char} {dt : PyDate}
    (h : dateFromisoformatList l = some dt) :
    (∃ y1 y2 y3 y4 m1 m2 e1 e2,
      l = [y1, y2, y3, y4, '-', m1, m2, '-', e1, e2] ∧
      isDigitChar y1 = true ∧ isDigitChar y2 = true ∧ isDigitChar y3 = true ∧
      isDigitChar y4 = true ∧ isDigitChar m1 = true ∧ isDigitChar m2 = true ∧
      isDigitChar e1 = true ∧ isDigitChar e2 = true ∧
      dt = ⟨((digitVal y1 * 10 + digitVal y2) * 10 + digitVal y3) * 10 + digitVal y4,
            digitVal m1 * 10 + digitVal m2, digitVal e1 * 10 + digitVal e2⟩ ∧
      pyDateValid dt.year dt.month dt.day = true) ∨
    (∃ y1 y2 y3 y4 w1 w2 e1,
      l = [y1, y2, y3, y4, '-', 'W', w1, w2, '-', e1] ∧
      isDigitChar y1 = true ∧ isDigitChar y2 = true ∧ isDigitChar y3 = true ∧
      isDigitChar y4 = true ∧ isDigitChar w1 = true ∧ isDigitChar w2 = true ∧
      isDigitChar e1 = true ∧
      pyDateFromisocalendar
        (((digitVal y1 * 10 + digitVal y2) * 10 + digitVal y3) * 10 + digitVal y4)
        (digitVal w1 * 10 + digitVal w2) (digitVal e1) = some dt) ∨
    (∃ y1 y2 y3 y4 w1 w2 e1 t1 t2,
      l = [y1, y2, y3, y4, 'W', w1, w2, e1, t1, t2] ∧
      isDigitChar y1 = true ∧ isDigitChar y2 = true ∧ isDigitChar y3 = true ∧
      isDigitChar y4 = true ∧ isDigitChar w1 = true ∧ isDigitChar w2 = true ∧
      isDigitChar e1 = true ∧
      pyDateFromisocalendar
        (((digitVal y1 * 10 + digitVal y2) * 10 + digitVal y3) * 10 + digitVal y4)
        (digitVal w1 * 10 + digitVal w2) (digitVal e1) = some dt) ∨
    (∃ y1 y2 y3 y4 m1 m2 e1 e2 t1 t2,
      l = [y1, y2, y3, y4, m1, m2, e1, e2, t1, t2] ∧
      isDigitChar y1 = true ∧ isDigitChar y2 = true ∧ isDigitChar y3 = true ∧
      isDigitChar y4 = true ∧ isDigitChar m1 = true ∧ isDigitChar m2 = true ∧
      isDigitChar e1 = true ∧ isDigitChar e2 = true ∧
      dt = ⟨((digitVal y1 * 10 + digitVal y2) * 10 + digitVal y3) * 10 + digitVal y4,
            digitVal m1 * 10 + digitVal m2, digitVal e1 * 10 + digitVal e2⟩ ∧
      pyDateValid dt.year dt.month dt.day = true) := by
  unfold dateFromisoformatList at h
  split at h
  next y1 y2 y3 y4 s1 m1 m2 s2 e1 e2 =>
    split at h
    next hcond =>
      simp only [Bool.and_eq_true, beq_iff_eq] at hcond
      obtain ⟨⟨⟨⟨⟨⟨⟨⟨⟨h1, h2⟩, h3⟩, h4⟩, hs1⟩, h5⟩, h6⟩, hs2⟩, h7⟩, h8⟩ := hcond
      subst hs1; subst hs2
      split at h
      next hvalid =>
        cases h
        exact Or.inl ⟨y1, y2, y3, y4, m1, m2, e1, e2, rfl, h1, h2, h3, h4, h5, h6, h7, h8,
          rfl, hvalid⟩
      next => cases h
    next =>
      split at h
      next hcond =>
        simp only [Bool.and_eq_true, beq_iff_eq] at hcond
        obtain ⟨⟨⟨⟨⟨⟨⟨⟨⟨h1, h2⟩, h3⟩, h4⟩, hs1⟩, hw⟩, h5⟩, h6⟩, hd⟩, h7⟩ := hcond
        subst hs1; subst hw; subst hd
        exact Or.inr (Or.inl ⟨y1, y2, y3, y4, m2, s2, e2, rfl, h1, h2, h3, h4, h5, h6, h7, h⟩)
      next =>
        split at h
        next hcond =>
          simp only [Bool.and_eq_true, beq_iff_eq] at hcond
          obtain ⟨⟨⟨⟨⟨⟨⟨h1, h2⟩, h3⟩, h4⟩, hw⟩, h5⟩, h6⟩, h7⟩ := hcond
          subst hw
          exact Or.inr (Or.inr (Or.inl
            ⟨y1, y2, y3, y4, m1, m2, s2, e1, e2, rfl, h1, h2, h3, h4, h5, h6, h7, h⟩))
        next =>
          split at h
          next hcond =>
            simp only [Bool.and_eq_true] at hcond
            obtain ⟨⟨⟨⟨⟨⟨⟨h1, h2⟩, h3⟩, h4⟩, h5⟩, h6⟩, h7⟩, h8⟩ := hcond
            split at h
            next hvalid =>
              cases h
              exact Or.inr (Or.inr (Or.inr
                ⟨y1, y2, y3, y4, s1, m1, m2, s2, e1, e2, rfl, h1, h2, h3, h4, h5, h6, h7, h8,
                  rfl, hvalid⟩))
            next => cases h
          next => cases h
  next => cases h

theorem pyDateValid_bounds {y m d : Nat} (h : pyDateValid y m d = true) :
    1 ≤ y ∧ y ≤ 9999 ∧ 1 ≤ m ∧ m ≤ 12 ∧ 1 ≤ d ∧ d ≤ 31 := by
  simp only [pyDateValid, Bool.and_eq_true, decide_eq_true_eq] at h
  obtain ⟨⟨⟨⟨⟨hy1, hy2⟩, hm1⟩, hm2⟩, hd1⟩, hd2⟩ := h
  have : daysInMonth y m ≤ 31 := by
    unfold daysInMonth
    split <;> [skip; split] <;> [split; skip; skip] <;> omega
  exact ⟨hy1, hy2, hm1, hm2, hd1, Nat.le_trans hd2 this⟩

/-- `datetime.date(y, m, d)` succeeds on a valid triple. -/
theorem pyDateMk_of_valid {y m d : Nat} (h : pyDateValid y m d = true) :
    pyDateMk (Int.ofNat y) (Int.ofNat m) (Int.ofNat d) = some ⟨y, m, d⟩ := by
  obtain ⟨hy1, _, hm1, _, hd1, _⟩ := pyDateValid_bounds h
  simp [pyDateMk, Int.toNat_ofNat, h]
  omega

theorem pad4Chars_digits {a b c d : Char} (ha : isDigitChar a = true)
    (hb : isDigitChar b = true) (hc : isDigitChar c = true)
    (hd : isDigitChar d = true) :
    pad4Chars (((digitVal a * 10 + digitVal b) * 10 + digitVal c) * 10 + digitVal d) =
      [a, b, c, d] := by
  obtain ⟨ha1, ha2⟩ := isDigitChar_bounds ha
  obtain ⟨hb1, hb2⟩ := isDigitChar_bounds hb
  obtain ⟨hc1, hc2⟩ := isDigitChar_bounds hc
  obtain ⟨hd1, hd2⟩ := isDigitChar_bounds hd
  unfold pad4Chars digitVal
  have q1 : ((((a.toNat - 48) * 10 + (b.toNat - 48)) * 10 + (c.toNat - 48)) * 10 +
      (d.toNat - 48)) / 1000 = a.toNat - 48 := by omega
  have q2 : ((((a.toNat - 48) * 10 + (b.toNat - 48)) * 10 + (c.toNat - 48)) * 10 +
      (d.toNat - 48)) / 100 % 10 = b.toNat - 48 := by omega
  have q3 : ((((a.toNat - 48) * 10 + (b.toNat - 48)) * 10 + (c.toNat - 48)) * 10 +
      (d.toNat - 48)) / 10 % 10 = c.toNat - 48 := by omega
  have q4 : ((((a.toNat - 48) * 10 + (b.toNat - 48)) * 10 + (c.toNat - 48)) * 10 +
      (d.toNat - 48)) % 10 = d.toNat - 48 := by omega
  rw [q1, q2, q3, q4,
    show 48 + (a.toNat - 48) = a.toNat by omega,
    show 48 + (b.toNat - 48) = b.toNat by omega,
    show 48 + (c.toNat - 48) = c.toNat by omega,
    show 48 + (d.toNat - 48) = d.toNat by omega,
    Char.ofNat_toNat, Char.ofNat_toNat, Char.ofNat_toNat, Char.ofNat_toNat]

theorem pad2Chars_digits {a b : Char} (ha : isDigitChar a = true)
    (hb : isDigitChar b = true) :
    pad2Chars (digitVal a * 10 + digitVal b) = [a, b] := by
  obtain ⟨ha1, ha2⟩ := isDigitChar_bounds ha
  obtain ⟨hb1, hb2⟩ := isDigitChar_bounds hb
  unfold pad2Chars digitVal
  rw [show ((a.toNat - 48) * 10 + (b.toNat - 48)) / 10 = a.toNat - 48 by omega,
    show ((a.toNat - 48) * 10 + (b.toNat - 48)) % 10 = b.toNat - 48 by omega,
    show 48 + (a.toNat - 48) = a.toNat by omega,
    show 48 + (b.toNat - 48) = b.toNat by omega,
    Char.ofNat_toNat, Char.ofNat_toNat]

theorem pythonInt_digits4 {s : String} {a b c d : Char} (hs : s.data = [a, b, c, d])
    (ha : isDigitChar a = true) (hb : isDigitChar b = true)
    (hc : isDigitChar c = true) (hd : isDigitChar d = true) :
    pythonInt s =
      some (Int.ofNat (((digitVal a * 10 + digitVal b) * 10 + digitVal c) * 10 + digitVal d)) := by
  unfold pythonInt
  rw [hs]
  simp [List.dropWhile, digit_not_space ha, digit_not_space hb, digit_not_space hc,
    digit_not_space hd, digit_ne_plus ha, digit_ne_dash ha,
    digitsWithUnderscores, digitsRun, ha, hb, hc, hd]

theorem pythonInt_digits2 {s : String} {a b : Char} (hs : s.data = [a, b])
    (ha : isDigitChar a = true) (hb : isDigitChar b = true) :
    pythonInt s = some (Int.ofNat (digitVal a * 10 + digitVal b)) := by
  unfold pythonInt
  rw [hs]
  simp [List.dropWhile, digit_not_space ha, digit_not_space hb,
    digit_ne_plus ha, digit_ne_dash ha, digitsWithUnderscores, digitsRun, ha, hb]

theorem pySplit_ymd {y1 y2 y3 y4 m1 m2 e1 e2 : Char}
    (h1 : isDigitChar y1 = true) (h2 : isDigitChar y2 = true)
    (h3 : isDigitChar y3 = true) (h4 : isDigitChar y4 = true)
    (h5 : isDigitChar m1 = true) (h6 : isDigitChar m2 = true)
    (h7 : isDigitChar e1 = true) (h8 : isDigitChar e2 = true) :
    pySplit '-' [y1, y2, y3, y4, '-', m1, m2, '-', e1, e2] =
      [[y1, y2, y3, y4], [m1, m2], [e1, e2]] := by
  simp [pySplit, digit_ne_dash h1, digit_ne_dash h2, digit_ne_dash h3, digit_ne_dash h4,
    digit_ne_dash h5, digit_ne_dash h6, digit_ne_dash h7, digit_ne_dash h8]

theorem pySplit_ym {y1 y2 y3 y4 m1 m2 : Char}
    (h1 : isDigitChar y1 = true) (h2 : isDigitChar y2 = true)
    (h3 : isDigitChar y3 = true) (h4 : isDigitChar y4 = true)
    (h5 : isDigitChar m1 = true) (h6 : isDigitChar m2 = true) :
    pySplit '-' [y1, y2, y3, y4, '-', m1, m2] = [[y1, y2, y3, y4], [m1, m2]] := by
  simp [pySplit, digit_ne_dash h1, digit_ne_dash h2, digit_ne_dash h3, digit_ne_dash h4,
    digit_ne_dash h5, digit_ne_dash h6]

/-- Branch inversion for `_parse_musicbrainz_date`: a successful parse came
from one of the three length branches. -/
theorem parse_musicbrainz_date_inv {s : String} {dt : PyDate}
    (h : parse_musicbrainz_date (some s) = some dt) :
    (s.length = 10 ∧ dateFromisoformat s = some dt) ∨
    (s.length = 7 ∧ dateFromisoformat (s ++ "-01") = some dt) ∨
    (s.length = 4 ∧ dateFromisoformat (s ++ "-01-01") = some dt) := by
  simp only [parse_musicbrainz_date] at h
  split at h
  · cases h
  split at h
  next h10 => exact Or.inl ⟨beq_iff_eq.mp h10, h⟩
  split at h
  next h7 => exact Or.inr (Or.inl ⟨beq_iff_eq.mp h7, h⟩)
  split at h
  next h4 => exact Or.inr (Or.inr ⟨beq_iff_eq.mp h4, h⟩)
  cases h

/-- Inversion of the 7-character branch (`fromisoformat(s + "-01")`): the
appended `-01` tail rules out every layout except extended calendar. -/
theorem fromiso_append01_inv {data : List Char} {dt : PyDate}
    (hlen : data.length = 7)
    (h : dateFromisoformatList (data ++ [ '-', '0', '1']) = some dt) :
    ∃ y1 y2 y3 y4 m1 m2,
      data = [y1, y2, y3, y4, '-', m1, m2] ∧
      isDigitChar y1 = true ∧ isDigitChar y2 = true ∧ isDigitChar y3 = true ∧
      isDigitChar y4 = true ∧ isDigitChar m1 = true ∧ isDigitChar m2 = true ∧
      dt = ⟨((digitVal y1 * 10 + digitVal y2) * 10 + digitVal y3) * 10 + digitVal y4,
            digitVal m1 * 10 + digitVal m2, 1⟩ ∧
      pyDateValid dt.year dt.month dt.day = true := by
  rcases dateFromisoformatList_inv h with
    ⟨y1, y2, y3, y4, m1, m2, e1, e2, hl, d1, d2, d3, d4, d5, d6, d7, d8, hdt, hval⟩ |
    ⟨y1, y2, y3, y4, w1, w2, e1, hl, d1, d2, d3, d4, d5, d6, d7, hcal⟩ |
    ⟨y1, y2, y3, y4, w1, w2, e1, t1, t2, hl, d1, d2, d3, d4, d5, d6, d7, hcal⟩ |
    ⟨y1, y2, y3, y4, m1, m2, e1, e2, t1, t2, hl, d1, d2, d3, d4, d5, d6, d7, d8, hdt, hval⟩
  · rw [show [y1, y2, y3, y4, '-', m1, m2, '-', e1, e2] =
        [y1, y2, y3, y4, '-', m1, m2] ++ [ '-', e1, e2] from rfl] at hl
    obtain ⟨hdata, htail⟩ := List.append_inj hl (by simp [hlen])
    have he1 : e1 = '0' := by injection htail with _ t; injection t with t1 _; exact t1.symm
    have he2 : e2 = '1' := by
      injection htail with _ t; injection t with _ t2; injection t2 with t3 _; exact t3.symm
    subst he1; subst he2
    refine ⟨y1, y2, y3, y4, m1, m2, hdata, d1, d2, d3, d4, d5, d6, ?_, hval⟩
    rw [hdt]
    congr 1
  · rw [show [y1, y2, y3, y4, '-', 'W', w1, w2, '-', e1] =
        [y1, y2, y3, y4, '-', 'W', w1] ++ [w2, '-', e1] from rfl] at hl
    obtain ⟨-, htail⟩ := List.append_inj hl (by simp [hlen])
    injection htail with _ t
    injection t with t1 _
    exact absurd t1 (by decide)
  · rw [show [y1, y2, y3, y4, 'W', w1, w2, e1, t1, t2] =
        [y1, y2, y3, y4, 'W', w1, w2] ++ [e1, t1, t2] from rfl] at hl
    obtain ⟨-, htail⟩ := List.append_inj hl (by simp [hlen])
    injection htail with t1 _
    rw [← t1] at d7
    exact absurd d7 (by decide)
  · rw [show [y1, y2, y3, y4, m1, m2, e1, e2, t1, t2] =
        [y1, y2, y3, y4, m1, m2, e1] ++ [e2, t1, t2] from rfl] at hl
    obtain ⟨-, htail⟩ := List.append_inj hl (by simp [hlen])
    injection htail with t1 _
    rw [← t1] at d8
    exact absurd d8 (by decide)

/-- Inversion of the 4-character branch (`fromisoformat(s + "-01-01")`):
the appended `-01-01` tail rules out every layout except extended
calendar. -/
theorem fromiso_append0101_inv {data : List Char} {dt : PyDate}
    (hlen : data.length = 4)
    (h : dateFromisoformatList (data ++ [ '-', '0', '1', '-', '0', '1']) = some dt) :
    ∃ y1 y2 y3 y4,
      data = [y1, y2, y3, y4] ∧
      isDigitChar y1 = true ∧ isDigitChar y2 = true ∧ isDigitChar y3 = true ∧
      isDigitChar y4 = true ∧
      dt = ⟨((digitVal y1 * 10 + digitVal y2) * 10 + digitVal y3) * 10 + digitVal y4, 1, 1⟩ ∧
      pyDateValid dt.year dt.month dt.day = true := by
  rcases dateFromisoformatList_inv h with
    ⟨y1, y2, y3, y4, m1, m2, e1, e2, hl, d1, d2, d3, d4, d5, d6, d7, d8, hdt, hval⟩ |
    ⟨y1, y2, y3, y4, w1, w2, e1, hl, d1, d2, d3, d4, d5, d6, d7, hcal⟩ |
    ⟨y1, y2, y3, y4, w1, w2, e1, t1, t2, hl, d1, d2, d3, d4, d5, d6, d7, hcal⟩ |
    ⟨y1, y2, y3, y4, m1, m2, e1, e2, t1, t2, hl, d1, d2, d3, d4, d5, d6, d7, d8, hdt, hval⟩
  · rw [show [y1, y2, y3, y4, '-', m1, m2, '-', e1, e2] =
        [y1, y2, y3, y4] ++ [ '-', m1, m2, '-', e1, e2] from rfl] at hl
    obtain ⟨hdata, htail⟩ := List.append_inj hl (by simp [hlen])
    have hm1 : m1 = '0' := by injection htail with _ t; injection t with t1 _; exact t1.symm
    have hm2 : m2 = '1' := by
      injection htail with _ t; injection t with _ t2; injection t2 with t3 _; exact t3.symm
    have he1 : e1 = '0' := by
      injection htail with _ t; injection t with _ t2; injection t2 with _ t3
      injection t3 with _ t4; injection t4 with t5 _; exact t5.symm
    have he2 : e2 = '1' := by
      injection htail with _ t; injection t with _ t2; injection t2 with _ t3
      injection t3 with _ t4; injection t4 with _ t5; injection t5 with t6 _; exact t6.symm
    subst hm1; subst hm2; subst he1; subst he2
    refine ⟨y1, y2, y3, y4, hdata, d1, d2, d3, d4, ?_, hval⟩
    rw [hdt]
    congr 1
  · rw [show [y1, y2, y3, y4, '-', 'W', w1, w2, '-', e1] =
        [y1, y2, y3, y4] ++ [ '-', 'W', w1, w2, '-', e1] from rfl] at hl
    obtain ⟨-, htail⟩ := List.append_inj hl (by simp [hlen])
    injection htail with _ t
    injection t with t1 _
    exact absurd t1 (by decide)
  · rw [show [y1, y2, y3, y4, 'W', w1, w2, e1, t1, t2] =
        [y1, y2, y3, y4] ++ ['W', w1, w2, e1, t1, t2] from rfl] at hl
    obtain ⟨-, htail⟩ := List.append_inj hl (by simp [hlen])
    injection htail with t1 _
    exact absurd t1 (by decide)
  · rw [show [y1, y2, y3, y4, m1, m2, e1, e2, t1, t2] =
        [y1, y2, y3, y4] ++ [m1, m2, e1, e2, t1, t2] from rfl] at hl
    obtain ⟨-, htail⟩ := List.append_inj hl (by simp [hlen])
    injection htail with t1 _
    rw [← t1] at d5
    exact absurd d5 (by decide)

theorem string_ne_empty_of_length {s : String} {n : Nat} (hlen : s.length = n)
    (hn : n ≠ 0) : s ≠ "" := by
  intro e
  rw [e] at hlen
  simp at hlen
  omega

/-- Evaluating the 10-character branch of the inline parser on an input of
the digit shape forced by a `fromisoformat` success. -/
theorem add_album_eval_ymd {y1 y2 y3 y4 m1 m2 e1 e2 : Char}
    (d1 : isDigitChar y1 = true) (d2 : isDigitChar y2 = true)
    (d3 : isDigitChar y3 = true) (d4 : isDigitChar y4 = true)
    (d5 : isDigitChar m1 = true) (d6 : isDigitChar m2 = true)
    (d7 : isDigitChar e1 = true) (d8 : isDigitChar e2 = true) :
    add_album_parse_date (some (String.mk [y1, y2, y3, y4, '-', m1, m2, '-', e1, e2])) =
      pyDateMk
        (Int.ofNat (((digitVal y1 * 10 + digitVal y2) * 10 + digitVal y3) * 10 + digitVal y4))
        (Int.ofNat (digitVal m1 * 10 + digitVal m2))
        (Int.ofNat (digitVal e1 * 10 + digitVal e2)) := by
  have L : (String.mk [y1, y2, y3, y4, '-', m1, m2, '-', e1, e2]).length = 10 := by simp
  simp only [add_album_parse_date]
  rw [if_neg (string_ne_empty_of_length L (by omega)),
    if_neg (by simp [L]), if_neg (by simp [L]), if_pos (by simp [L])]
  rw [pySplit_ymd d1 d2 d3 d4 d5 d6 d7 d8]
  simp only [pythonInt_digits4 rfl d1 d2 d3 d4, pythonInt_digits2 rfl d5 d6,
    pythonInt_digits2 rfl d7 d8]

/-- Evaluating the 7-character branch of the inline parser. -/
theorem add_album_eval_ym {y1 y2 y3 y4 m1 m2 : Char}
    (d1 : isDigitChar y1 = true) (d2 : isDigitChar y2 = true)
    (d3 : isDigitChar y3 = true) (d4 : isDigitChar y4 = true)
    (d5 : isDigitChar m1 = true) (d6 : isDigitChar m2 = true) :
    add_album_parse_date (some (String.mk [y1, y2, y3, y4, '-', m1, m2])) =
      pyDateMk
        (Int.ofNat (((digitVal y1 * 10 + digitVal y2) * 10 + digitVal y3) * 10 + digitVal y4))
        (Int.ofNat (digitVal m1 * 10 + digitVal m2)) 1 := by
  have L : (String.mk [y1, y2, y3, y4, '-', m1, m2]).length = 7 := by simp
  simp only [add_album_parse_date]
  rw [if_neg (string_ne_empty_of_length L (by omega)),
    if_neg (by simp [L]), if_pos (by simp [L])]
  rw [pySplit_ym d1 d2 d3 d4 d5 d6]
  simp only [pythonInt_digits4 rfl d1 d2 d3 d4, pythonInt_digits2 rfl d5 d6]

/-- Evaluating the 4-character branch of the inline parser. -/
theorem add_album_eval_y {y1 y2 y3 y4 : Char}
    (d1 : isDigitChar y1 = true) (d2 : isDigitChar y2 = true)
    (d3 : isDigitChar y3 = true) (d4 : isDigitChar y4 = true) :
    add_album_parse_date (some (String.mk [y1, y2, y3, y4])) =
      pyDateMk
        (Int.ofNat (((digitVal y1 * 10 + digitVal y2) * 10 + digitVal y3) * 10 + digitVal y4))
        1 1 := by
  have L : (String.mk [y1, y2, y3, y4]).length = 4 := by simp
  simp only [add_album_parse_date]
  rw [if_neg (string_ne_empty_of_length L (by omega)), if_pos (by simp [L])]
  rw [pythonInt_digits4 rfl d1 d2 d3 d4]


theorem pyDateMk_natcast (y m d : Nat) :
    pyDateMk (Int.ofNat y) (Int.ofNat m) (Int.ofNat d) =
      if pyDateValid y m d = true then some ⟨y, m, d⟩ else none := by
  by_cases h : pyDateValid y m d = true
  · rw [if_pos h]
    exact pyDateMk_of_valid h
  · rw [if_neg h]
    unfold pyDateMk
    rw [if_neg]
    intro hcond
    simp only [Bool.and_eq_true, decide_eq_true_eq, Int.toNat_ofNat] at hcond
    exact h hcond.2

/-- Evaluating `fromisoformat` on an extended-calendar digit layout. -/
theorem dateFromiso_digit_eval {a b c d f g i j : Char}
    (ha : isDigitChar a = true) (hb : isDigitChar b = true)
    (hc : isDigitChar c = true) (hd : isDigitChar d = true)
    (hf : isDigitChar f = true) (hg : isDigitChar g = true)
    (hi : isDigitChar i = true) (hj : isDigitChar j = true) :
    dateFromisoformatList [a, b, c, d, '-', f, g, '-', i, j] =
      if pyDateValid (((digitVal a * 10 + digitVal b) * 10 + digitVal c) * 10 + digitVal d)
          (digitVal f * 10 + digitVal g) (digitVal i * 10 + digitVal j) = true then
        some ⟨((digitVal a * 10 + digitVal b) * 10 + digitVal c) * 10 + digitVal d,
          digitVal f * 10 + digitVal g, digitVal i * 10 + digitVal j⟩
      else none := by
  have hcond : (isDigitChar a && isDigitChar b && isDigitChar c && isDigitChar d &&
      (('-' : Char) == '-') && isDigitChar f && isDigitChar g &&
      (('-' : Char) == '-') && isDigitChar i && isDigitChar j) = true := by
    simp [ha, hb, hc, hd, hf, hg, hi, hj]
  simp only [dateFromisoformatList]
  rw [if_pos hcond]

theorem parse_eval_len10 {l : List Char} (hlen : l.length = 10) :
    parse_musicbrainz_date (some (String.mk l)) = dateFromisoformatList l := by
  simp only [parse_musicbrainz_date]
  rw [if_neg (string_ne_empty_of_length (show (String.mk l).length = 10 by simp [hlen])
        (by omega)),
    if_pos (by simp [hlen])]
  rfl

theorem parse_eval_len7 {l : List Char} (hlen : l.length = 7) :
    parse_musicbrainz_date (some (String.mk l)) =
      dateFromisoformatList (l ++ [ '-', '0', '1']) := by
  simp only [parse_musicbrainz_date]
  rw [if_neg (string_ne_empty_of_length (show (String.mk l).length = 7 by simp [hlen])
        (by omega)),
    if_neg (by simp [hlen]), if_pos (by simp [hlen])]
  rfl

theorem parse_eval_len4 {l : List Char} (hlen : l.length = 4) :
    parse_musicbrainz_date (some (String.mk l)) =
      dateFromisoformatList (l ++ [ '-', '0', '1', '-', '0', '1']) := by
  simp only [parse_musicbrainz_date]
  rw [if_neg (string_ne_empty_of_length (show (String.mk l).length = 4 by simp [hlen])
        (by omega)),
    if_neg (by simp [hlen]), if_neg (by simp [hlen]), if_pos (by simp [hlen])]
  rfl

/-- C2 counterexample: the 10-character input "2019-W19-1" — an ISO
week-date string CPython ≥3.11's `fromisoformat` accepts — parses to
2019-05-06, a date the string does not spell in `YYYY-MM-DD` form; it is
outside the year-month-day digit layouts and fails their calendar
reading, yet does not map to null. -/
theorem parse_musicbrainz_week_date_counterexample :
    parse_musicbrainz_date (some "2019-W19-1") = some ⟨2019, 5, 6⟩ ∧
    mbDigitLayout ("2019-W19-1").data = false ∧
    ("2019-W19-1").data ≠ isoRenderChars ⟨2019, 5, 6⟩ := by decide

/-- C2 (amended): the MusicBrainz date parser maps a 10-character
`YYYY-MM-DD` string to the exact calendar date it spells, a 7-character
string to the first day of that month, a 4-character string to January
1st of that year, and null/empty, other lengths, and values failing
calendar validation to null — except that, through CPython ≥3.11's
`date.fromisoformat`, a 10-character input may also be an ISO week-date
or basic-format string, which parses to the date it denotes rather than
to null; every successful parse is still a calendar-valid date, and the
literal seed cases are unchanged. -/
theorem parse_musicbrainz_date_policy :
    parse_musicbrainz_date none = none ∧
    parse_musicbrainz_date (some "") = none ∧
    parse_musicbrainz_date (some "invalid") = none ∧
    parse_musicbrainz_date (some "1973") = some ⟨1973, 1, 1⟩ ∧
    parse_musicbrainz_date (some "1973-03") = some ⟨1973, 3, 1⟩ ∧
    parse_musicbrainz_date (some "1973-03-01") = some ⟨1973, 3, 1⟩ ∧
    (∀ s : String, s.length ≠ 4 → s.length ≠ 7 → s.length ≠ 10 →
      parse_musicbrainz_date (some s) = none) ∧
    (∀ s : String, ∀ dt : PyDate, parse_musicbrainz_date (some s) = some dt →
      pyDateValid dt.year dt.month dt.day = true) ∧
    (∀ s : String, ∀ dt : PyDate, s.length = 10 →
      parse_musicbrainz_date (some s) = some dt →
      s.data = isoRenderChars dt ∨
      (∃ t1 t2, s.data = basicRenderChars dt ++ [t1, t2]) ∨
      (∃ y1 y2 y3 y4 w1 w2 e1,
        (s.data = [y1, y2, y3, y4, '-', 'W', w1, w2, '-', e1] ∨
         ∃ t1 t2, s.data = [y1, y2, y3, y4, 'W', w1, w2, e1, t1, t2]) ∧
        pyDateFromisocalendar
          (((digitVal y1 * 10 + digitVal y2) * 10 + digitVal y3) * 10 + digitVal y4)
          (digitVal w1 * 10 + digitVal w2) (digitVal e1) = some dt)) ∧
    (∀ s : String, ∀ dt : PyDate, s.length = 7 →
      parse_musicbrainz_date (some s) = some dt →
      dt.day = 1 ∧ s.data = pad4Chars dt.year ++ '-' :: pad2Chars dt.month) ∧
    (∀ s : String, ∀ dt : PyDate, s.length = 4 →
      parse_musicbrainz_date (some s) = some dt →
      dt.month = 1 ∧ dt.day = 1 ∧ s.data = pad4Chars dt.year) := by
  refine ⟨rfl, by decide, by decide, by decide, by decide, by decide, ?_, ?_, ?_, ?_, ?_⟩
  · intro s h4 h7 h10
    simp only [parse_musicbrainz_date]
    split
    · rfl
    · rw [if_neg (by simp [h10]), if_neg (by simp [h7]), if_neg (by simp [h4])]
  · intro s dt h
    rcases parse_musicbrainz_date_inv h with ⟨_, h⟩ | ⟨h7, h⟩ | ⟨h4, h⟩
    · rcases dateFromisoformatList_inv h with
        ⟨_, _, _, _, _, _, _, _, _, _, _, _, _, _, _, _, _, _, hval⟩ |
        ⟨_, _, _, _, _, _, _, _, _, _, _, _, _, _, _, hcal⟩ |
        ⟨_, _, _, _, _, _, _, _, _, _, _, _, _, _, _, _, _, hcal⟩ |
        ⟨_, _, _, _, _, _, _, _, _, _, _, _, _, _, _, _, _, _, _, _, hval⟩
      · exact hval
      · exact pyDateFromisocalendar_valid hcal
      · exact pyDateFromisocalendar_valid hcal
      · exact hval
    · obtain ⟨_, _, _, _, _, _, _, _, _, _, _, _, _, _, hval⟩ :=
        fromiso_append01_inv (by simpa using h7) (by simpa using h)
      exact hval
    · obtain ⟨_, _, _, _, _, _, _, _, _, _, hval⟩ :=
        fromiso_append0101_inv (by simpa using h4) (by simpa using h)
      exact hval
  · intro s dt hlen h
    rcases parse_musicbrainz_date_inv h with ⟨_, h⟩ | ⟨h7, _⟩ | ⟨h4, _⟩
    · rcases dateFromisoformatList_inv h with
        ⟨y1, y2, y3, y4, m1, m2, e1, e2, hl, d1, d2, d3, d4, d5, d6, d7, d8, hdt, _⟩ |
        ⟨y1, y2, y3, y4, w1, w2, e1, hl, d1, d2, d3, d4, d5, d6, d7, hcal⟩ |
        ⟨y1, y2, y3, y4, w1, w2, e1, t1, t2, hl, d1, d2, d3, d4, d5, d6, d7, hcal⟩ |
        ⟨y1, y2, y3, y4, m1, m2, e1, e2, t1, t2, hl, d1, d2, d3, d4, d5, d6, d7, d8, hdt, _⟩
      · refine Or.inl ?_
        subst hdt
        unfold isoRenderChars
        rw [pad4Chars_digits d1 d2 d3 d4, pad2Chars_digits d5 d6, pad2Chars_digits d7 d8]
        exact hl
      · exact Or.inr (Or.inr ⟨y1, y2, y3, y4, w1, w2, e1, Or.inl hl, hcal⟩)
      · exact Or.inr (Or.inr ⟨y1, y2, y3, y4, w1, w2, e1, Or.inr ⟨t1, t2, hl⟩, hcal⟩)
      · refine Or.inr (Or.inl ⟨t1, t2, ?_⟩)
        subst hdt
        unfold basicRenderChars
        rw [pad4Chars_digits d1 d2 d3 d4, pad2Chars_digits d5 d6, pad2Chars_digits d7 d8]
        simpa using hl
    · omega
    · omega
  · intro s dt hlen h
    rcases parse_musicbrainz_date_inv h with ⟨h10, _⟩ | ⟨_, h⟩ | ⟨h4, _⟩
    · omega
    · obtain ⟨y1, y2, y3, y4, m1, m2, hdata, d1, d2, d3, d4, d5, d6, hdt, _⟩ :=
        fromiso_append01_inv (by simpa using hlen) (by simpa using h)
      subst hdt
      refine ⟨rfl, ?_⟩
      rw [pad4Chars_digits d1 d2 d3 d4, pad2Chars_digits d5 d6]
      exact hdata
    · omega
  · intro s dt hlen h
    rcases parse_musicbrainz_date_inv h with ⟨h10, _⟩ | ⟨h7, _⟩ | ⟨_, h⟩
    · omega
    · omega
    · obtain ⟨y1, y2, y3, y4, hdata, d1, d2, d3, d4, hdt, _⟩ :=
        fromiso_append0101_inv (by simpa using hlen) (by simpa using h)
      subst hdt
      refine ⟨rfl, rfl, ?_⟩
      rw [pad4Chars_digits d1 d2 d3 d4]
      exact hdata

/-- Witness for the amended C2 theorem: the universally quantified
conjuncts applied at concrete inputs. -/
theorem parse_musicbrainz_date_policy_witness :
    parse_musicbrainz_date (some "197303-01") = none ∧
    pyDateValid 1973 3 1 = true := by
  constructor
  · exact parse_musicbrainz_date_policy.2.2.2.2.2.2.1 "197303-01"
      (by decide) (by decide) (by decide)
  · exact parse_musicbrainz_date_policy.2.2.2.2.2.2.2.1 "1973-03-01" ⟨1973, 3, 1⟩ (by decide)

/-- C3 counterexample: the two music-date parsing code paths diverge in
both directions — `_parse_musicbrainz_date` rejects "+973-03-01"
(`fromisoformat` refuses the sign) while the inline block in
`add_album_to_week` accepts it (`int("+973")` is 973), and
`_parse_musicbrainz_date` accepts the ISO week date "2019-W19-1" while
the inline block rejects it (`int("W19")` raises). -/
theorem musicDateParsing_paths_differ :
    parse_musicbrainz_date (some "+973-03-01") = none ∧
    add_album_parse_date (some "+973-03-01") = some ⟨973, 3, 1⟩ ∧
    parse_musicbrainz_date (some "2019-W19-1") = some ⟨2019, 5, 6⟩ ∧
    add_album_parse_date (some "2019-W19-1") = none ∧
    parse_musicbrainz_date (some "+973-03-01") ≠
      add_album_parse_date (some "+973-03-01") ∧
    parse_musicbrainz_date (some "2019-W19-1") ≠
      add_album_parse_date (some "2019-W19-1") := by decide

/-- C3 (amended): the two music-date parsing code paths agree on every
input in the documented MusicBrainz digit layouts (`YYYY`, `YYYY-MM`,
`YYYY-MM-DD`, calendar-valid or not), on None, and on every input whose
length is not 4, 7 or 10; outside those layouts they diverge in both
directions (see the counterexample). -/
theorem musicDate_paths_agree_on_digit_layouts :
    (∀ s : String, mbDigitLayout s.data = true →
      add_album_parse_date (some s) = parse_musicbrainz_date (some s)) ∧
    add_album_parse_date none = parse_musicbrainz_date none ∧
    (∀ s : String, s.length ≠ 4 → s.length ≠ 7 → s.length ≠ 10 →
      add_album_parse_date (some s) = none ∧
      parse_musicbrainz_date (some s) = none) := by
  refine ⟨?_, rfl, ?_⟩
  · intro s hlay
    obtain ⟨data⟩ := s
    unfold mbDigitLayout at hlay
    split at hlay
    next a b c d hdata =>
      have hdata2 : data = [a, b, c, d] := hdata
      subst hdata2
      simp only [Bool.and_eq_true] at hlay
      obtain ⟨⟨⟨ha, hb⟩, hc⟩, hd⟩ := hlay
      rw [add_album_eval_y ha hb hc hd, parse_eval_len4 (by simp),
        show ([a, b, c, d] ++ [ '-', '0', '1', '-', '0', '1']) =
          [a, b, c, d, '-', '0', '1', '-', '0', '1'] from rfl,
        dateFromiso_digit_eval ha hb hc hd (by decide) (by decide) (by decide) (by decide),
        show digitVal '0' * 10 + digitVal '1' = 1 from by decide]
      exact pyDateMk_natcast _ 1 1
    next a b c d e f g hdata =>
      have hdata2 : data = [a, b, c, d, e, f, g] := hdata
      subst hdata2
      simp only [Bool.and_eq_true, beq_iff_eq] at hlay
      obtain ⟨⟨⟨⟨⟨⟨ha, hb⟩, hc⟩, hd⟩, he⟩, hf⟩, hg⟩ := hlay
      subst he
      rw [add_album_eval_ym ha hb hc hd hf hg, parse_eval_len7 (by simp),
        show ([a, b, c, d, '-', f, g] ++ [ '-', '0', '1']) =
          [a, b, c, d, '-', f, g, '-', '0', '1'] from rfl,
        dateFromiso_digit_eval ha hb hc hd hf hg (by decide) (by decide),
        show digitVal '0' * 10 + digitVal '1' = 1 from by decide]
      exact pyDateMk_natcast _ _ 1
    next a b c d e f g h i j hdata =>
      have hdata2 : data = [a, b, c, d, e, f, g, h, i, j] := hdata
      subst hdata2
      simp only [Bool.and_eq_true, beq_iff_eq] at hlay
      obtain ⟨⟨⟨⟨⟨⟨⟨⟨⟨ha, hb⟩, hc⟩, hd⟩, he⟩, hf⟩, hg⟩, hh⟩, hi⟩, hj⟩ := hlay
      subst he; subst hh
      rw [add_album_eval_ymd ha hb hc hd hf hg hi hj, parse_eval_len10 (by simp),
        dateFromiso_digit_eval ha hb hc hd hf hg hi hj]
      exact pyDateMk_natcast _ _ _
    next => cases hlay
  · intro s h4 h7 h10
    constructor
    · simp only [add_album_parse_date]
      split
      · rfl
      · rw [if_neg (by simp [h4]), if_neg (by simp [h7]), if_neg (by simp [h10])]
    · simp only [parse_musicbrainz_date]
      split
      · rfl
      · rw [if_neg (by simp [h10]), if_neg (by simp [h7]), if_neg (by simp [h4])]

/-- Witness for the amended C3 theorem at a concrete digit-layout
input. -/
theorem musicDate_paths_agree_on_digit_layouts_witness :
    add_album_parse_date (some "1973-03-01") =
      parse_musicbrainz_date (some "1973-03-01") :=
  musicDate_paths_agree_on_digit_layouts.1 "1973-03-01" (by decide)

/-- C1: for every movie/album natural key already in the local cache, the
detail operation returns the cached row without any upstream call —
runtime, vote_count, tagline, imdb_id, backdrop (and, for albums, country
and status) are served as null/zero and `cached` is true — and the
upstream client is invoked only on a cache miss. -/
theorem cache_hit_serves_row_without_upstream :
    (∀ (db : List MovieRow) (fetch : Nat → FetchResult TMDBMovieDetails)
        (tmdbId now freshId : Nat) (m : MovieRow),
      db.find? (fun r => r.tmdb_id == tmdbId) = some m →
      get_movie db fetch tmdbId now freshId =
        (.ok { tmdb_id := m.tmdb_id, title := m.title,
               original_title := m.original_title, release_date := m.release_date,
               poster_url := get_poster_url m.poster_path "w342",
               backdrop_url := none, overview := m.overview, runtime := none,
               vote_average := 0, vote_count := 0, tagline := none,
               status := none, imdb_id := none, cached := true }, db, 0)) ∧
    (∀ (db : List MovieRow) (fetch : Nat → FetchResult TMDBMovieDetails)
        (tmdbId now freshId : Nat),
      (get_movie db fetch tmdbId now freshId).2.2 ≠ 0 →
      db.find? (fun r => r.tmdb_id == tmdbId) = none) ∧
    (∀ (db : List AlbumRow) (fetch : String → FetchResult MBReleaseDetails)
        (mbid : String) (now freshId : Nat) (a : AlbumRow),
      db.find? (fun r => r.musicbrainz_id == mbid) = some a →
      get_album db fetch mbid now freshId =
        (.ok { musicbrainz_id := a.musicbrainz_id, title := a.title,
               artist := some a.artist,
               release_date := a.release_date.map pyDateIsoformat,
               country := none, status := none,
               cover_art_url := a.cover_art_url, cached := true }, db, 0)) ∧
    (∀ (db : List AlbumRow) (fetch : String → FetchResult MBReleaseDetails)
        (mbid : String) (now freshId : Nat),
      (get_album db fetch mbid now freshId).2.2 ≠ 0 →
      db.find? (fun r => r.musicbrainz_id == mbid) = none) := by
  refine ⟨?_, ?_, ?_, ?_⟩
  · intro db fetch tmdbId now freshId m h
    simp [get_movie, h]
  · intro db fetch tmdbId now freshId hcalls
    cases hfind : db.find? (fun r => r.tmdb_id == tmdbId) with
    | none => rfl
    | some m => exact absurd (by simp [get_movie, hfind]) hcalls
  · intro db fetch mbid now freshId a h
    simp [get_album, h]
  · intro db fetch mbid now freshId hcalls
    cases hfind : db.find? (fun r => r.musicbrainz_id == mbid) with
    | none => rfl
    | some a => exact absurd (by simp [get_album, hfind]) hcalls

/-- Witness for C1 at a concrete one-row cache. -/
theorem cache_hit_serves_row_without_upstream_witness :
    get_movie [{ id := 1, tmdb_id := 550, title := "Fight Club",
                 original_title := none, release_date := none,
                 poster_path := none, overview := none, cached_at := 0 }]
        (fun _ => .notFound) 550 7 2 =
      (.ok { tmdb_id := 550, title := "Fight Club", original_title := none,
             release_date := none, poster_url := none, backdrop_url := none,
             overview := none, runtime := none, vote_average := 0,
             vote_count := 0, tagline := none, status := none,
             imdb_id := none, cached := true },
       [{ id := 1, tmdb_id := 550, title := "Fight Club",
          original_title := none, release_date := none,
          poster_path := none, overview := none, cached_at := 0 }], 0) :=
  cache_hit_serves_row_without_upstream.1
    [{ id := 1, tmdb_id := 550, title := "Fight Club", original_title := none,
       release_date := none, poster_path := none, overview := none,
       cached_at := 0 }]
    (fun _ => .notFound) 550 7 2
    { id := 1, tmdb_id := 550, title := "Fight Club", original_title := none,
      release_date := none, poster_path := none, overview := none,
      cached_at := 0 }
    (by decide)

/-- C4: week creation enforces global uniqueness of `(year, week_number)`
— an existing week for the pair, whoever owns it, makes `create_week`
fail with a 409 whose detail names the existing owner — and otherwise a
new week is created with the requester as owner and
`created_at = updated_at`. -/
theorem week_creation_global_uniqueness :
    (∀ (users : List UserP) (db : List WeekRow) (cu : UserP)
        (year wn : Nat) (notes : Option String) (now freshId : Nat) (ex : WeekRow),
      db.find? (fun w => w.year == year && w.week_number == wn) = some ex →
      create_week users db cu year wn notes now freshId =
        (.httpError 409
          ("Week " ++ toString year ++ "-W" ++ pad2Str wn ++
            " already exists (created by " ++
            (match weekOwner users ex with
             | some u => u.username
             | none => "unknown") ++ ")"), db)) ∧
    (∀ (users : List UserP) (db : List WeekRow) (cu : UserP)
        (year wn : Nat) (notes : Option String) (now freshId : Nat)
        (ex : WeekRow) (u : UserP),
      db.find? (fun w => w.year == year && w.week_number == wn) = some ex →
      weekOwner users ex = some u →
      ∃ pre post,
        (create_week users db cu year wn notes now freshId).1 =
          .httpError 409 (pre ++ u.username ++ post)) ∧
    (∀ (users : List UserP) (db : List WeekRow) (cu : UserP)
        (year wn : Nat) (notes : Option String) (now freshId : Nat),
      db.find? (fun w => w.year == year && w.week_number == wn) = none →
      create_week users db cu year wn notes now freshId =
        (.ok { id := freshId, user_id := some cu.id, owner := some cu,
               year := year, week_number := wn, notes := notes,
               created_at := now, updated_at := now },
         db ++ [{ id := freshId, user_id := some cu.id, year := year,
                  week_number := wn, notes := notes, created_at := now,
                  updated_at := now }])) := by
  refine ⟨?_, ?_, ?_⟩
  · intro users db cu year wn notes now freshId ex h
    simp [create_week, h]
  · intro users db cu year wn notes now freshId ex u h howner
    refine ⟨"Week " ++ toString year ++ "-W" ++ pad2Str wn ++
      " already exists (created by ", ")", ?_⟩
    simp [create_week, h, howner]
  · intro users db cu year wn notes now freshId h
    simp [create_week, h]

/-- Witness for C4: creating (2025, 1) twice, the second attempt by a
different account, yields a 409 naming the first owner. -/
theorem week_creation_global_uniqueness_witness :
    create_week [⟨1, "alice"⟩]
        [{ id := 10, user_id := some 1, year := 2025, week_number := 1,
           notes := none, created_at := 0, updated_at := 0 }]
        ⟨2, "bob"⟩ 2025 1 none 5 11 =
      (.httpError 409 "Week 2025-W01 already exists (created by alice)",
       [{ id := 10, user_id := some 1, year := 2025, week_number := 1,
          notes := none, created_at := 0, updated_at := 0 }]) := by
  have h := week_creation_global_uniqueness.1 [⟨1, "alice"⟩]
    [{ id := 10, user_id := some 1, year := 2025, week_number := 1,
       notes := none, created_at := 0, updated_at := 0 }]
    ⟨2, "bob"⟩ 2025 1 none 5 11
    { id := 10, user_id := some 1, year := 2025, week_number := 1,
      notes := none, created_at := 0, updated_at := 0 } (by decide)
  rw [h]
  decide

/-- C10: a week whose owner reference is null is read-only through the
API — every ownership-checked operation answers 403 Forbidden to every
authenticated requester, because `week.user_id != current_user.id`
compares null against an id. -/
theorem ownerless_weeks_forbidden :
    ∀ (users : List UserP) (st : WeeksSt) (cu : UserP) (weekId : Nat) (wk : WeekRow),
      st.weeks.find? (fun w => w.id == weekId) = some wk →
      wk.user_id = none →
      (∀ (notes : Option String) (now : Nat),
        update_week users st cu weekId notes now =
          (.httpError 403 "Only the owner can modify this week", st)) ∧
      (delete_week st cu weekId =
        (.httpError 403 "Only the owner can delete this week", st)) ∧
      (∀ (fetch : Nat → FetchResult TMDBMovieDetails) (tmdbId position now mfid sfid : Nat),
        add_movie_to_week st fetch cu weekId tmdbId position now mfid sfid =
          (.httpError 403 "Only the owner can modify this week", st, 0)) ∧
      (∀ (fetch : String → FetchResult MBReleaseDetails) (mbid : String)
          (position now afid sfid : Nat),
        add_album_to_week st fetch cu weekId mbid position now afid sfid =
          (.httpError 403 "Only the owner can modify this week", st, 0)) ∧
      (∀ position now : Nat, position = 1 ∨ position = 2 →
        remove_movie_from_week st cu weekId position now =
          (.httpError 403 "Only the owner can modify this week", st)) ∧
      (∀ position now : Nat, position = 1 ∨ position = 2 →
        remove_album_from_week st cu weekId position now =
          (.httpError 403 "Only the owner can modify this week", st)) := by
  intro users st cu weekId wk hfind hnull
  refine ⟨?_, ?_, ?_, ?_, ?_, ?_⟩
  · intro notes now
    simp [update_week, hfind, hnull]
  · simp [delete_week, hfind, hnull]
  · intro fetch tmdbId position now mfid sfid
    simp [add_movie_to_week, hfind, hnull]
  · intro fetch mbid position now afid sfid
    simp [add_album_to_week, hfind, hnull]
  · intro position now hpos
    rcases hpos with rfl | rfl <;> simp [remove_movie_from_week, hfind, hnull]
  · intro position now hpos
    rcases hpos with rfl | rfl <;> simp [remove_album_from_week, hfind, hnull]

/-- Witness for C10 on a concrete ownerless week. -/
theorem ownerless_weeks_forbidden_witness :
    delete_week
        { weeks := [{ id := 1, user_id := none, year := 2025, week_number := 1,
                      notes := none, created_at := 0, updated_at := 0 }],
          movies := [], albums := [], weekMovies := [], weekAlbums := [] }
        ⟨7, "anyone"⟩ 1 =
      (.httpError 403 "Only the owner can delete this week",
       { weeks := [{ id := 1, user_id := none, year := 2025, week_number := 1,
                     notes := none, created_at := 0, updated_at := 0 }],
         movies := [], albums := [], weekMovies := [], weekAlbums := [] }) :=
  (ownerless_weeks_forbidden []
    { weeks := [{ id := 1, user_id := none, year := 2025, week_number := 1,
                  notes := none, created_at := 0, updated_at := 0 }],
      movies := [], albums := [], weekMovies := [], weekAlbums := [] }
    ⟨7, "anyone"⟩ 1
    { id := 1, user_id := none, year := 2025, week_number := 1,
      notes := none, created_at := 0, updated_at := 0 }
    (by decide) rfl).2.1

theorem rate_limit_step_pos {delay last arrival : Rat} (hd : 0 < delay) :
    (rate_limit_step delay last arrival).1 = (rate_limit_step delay last arrival).2 ∧
    last + delay ≤ (rate_limit_step delay last arrival).1 := by
  unfold rate_limit_step
  rw [if_pos hd]
  split
  · exact ⟨rfl, le_refl _⟩
  · next h => exact ⟨rfl, by linarith [not_lt.mp h]⟩

theorem issueTimes_spacing_aux {delay : Rat} (hd : 0 < delay) :
    ∀ (arrivals : List Rat) (last : Rat),
      List.Chain' (fun a b => a + delay ≤ b) (issueTimes delay last arrivals) ∧
      (∀ y ∈ (issueTimes delay last arrivals).head?, last + delay ≤ y) := by
  intro arrivals
  induction arrivals with
  | nil => exact fun last => ⟨List.chain'_nil, by simp [issueTimes]⟩
  | cons a rest ih =>
    intro last
    obtain ⟨hstep_eq, hstep_ge⟩ := @rate_limit_step_pos delay last a hd
    constructor
    · show List.Chain' _
        ((rate_limit_step delay last a).1 ::
          issueTimes delay (rate_limit_step delay last a).2 rest)
      rw [List.chain'_cons']
      refine ⟨?_, (ih _).1⟩
      intro y hy
      have := (ih ((rate_limit_step delay last a).2)).2 y hy
      rw [hstep_eq]
      exact this
    · intro y hy
      simp only [issueTimes, List.head?_cons, Option.mem_def, Option.some.injEq] at hy
      subst hy
      exact hstep_ge

/-- C9: with the idealized monotone clock of `_wait_for_rate_limit`, any
two consecutive requests issued through one MusicBrainz client instance
(constructed with `rate_limit_delay=1.0`) are spaced at least 1 second
apart, whatever times the calls arrive at the limiter; the TMDB client's
delay is zero and its requests are issued exactly when they arrive. -/
theorem musicbrainz_one_second_spacing :
    musicbrainz_rate_limit_delay = 1 ∧
    tmdb_rate_limit_delay = 0 ∧
    (∀ (last : Rat) (arrivals : List Rat),
      List.Chain' (fun a b => a + 1 ≤ b)
        (issueTimes musicbrainz_rate_limit_delay last arrivals)) ∧
    (∀ (last : Rat) (arrivals : List Rat),
      issueTimes tmdb_rate_limit_delay last arrivals = arrivals) := by
  refine ⟨rfl, rfl, ?_, ?_⟩
  · intro last arrivals
    exact (issueTimes_spacing_aux (by norm_num) arrivals last).1
  · intro last arrivals
    induction arrivals generalizing last with
    | nil => rfl
    | cons a rest ih =>
      rw [show issueTimes tmdb_rate_limit_delay last (a :: rest) =
          (rate_limit_step tmdb_rate_limit_delay last a).1 ::
            issueTimes tmdb_rate_limit_delay
              (rate_limit_step tmdb_rate_limit_delay last a).2 rest from rfl]
      rw [show rate_limit_step tmdb_rate_limit_delay last a = (a, last) from by
        simp [rate_limit_step, tmdb_rate_limit_delay]]
      rw [ih]

/-- C6 failing input: a 429 response whose `Retry-After` header is not an
integer literal makes `int(retry_after)` raise a `ValueError` that
nothing catches, so the call raises none of the three normalized errors
— contradicting the docstring of `_handle_response` and the spec's
error taxonomy. -/
theorem handle_response_429_nonint_retry_after :
    client_request (Transport.response
      ({ status_code := 429, retry_after_header := some "x", text := "",
         json_body := Except.ok () } : PyResponse Unit)) =
      PyOutcome.uncaughtValueError ∧
    (∀ ra : Option Int,
      (PyOutcome.uncaughtValueError : PyOutcome Unit) ≠ PyOutcome.rateLimitError ra) ∧
    (∀ (msg : String) (stc : Option Nat),
      (PyOutcome.uncaughtValueError : PyOutcome Unit) ≠ PyOutcome.apiError msg stc) ∧
    ((PyOutcome.uncaughtValueError : PyOutcome Unit) ≠ PyOutcome.notFoundError) ∧
    (∀ b : Unit, (PyOutcome.uncaughtValueError : PyOutcome Unit) ≠ PyOutcome.ok b) := by
  refine ⟨by decide, ?_, ?_, ?_, ?_⟩
  · intro ra h
    cases h
  · intro msg stc h
    cases h
  · intro h
    cases h
  · intro b h
    cases h

theorem pairwise_key_append {α : Type} {key : α → Nat × Nat} {l : List α} {x : α}
    (hinv : l.Pairwise (fun a b => key a ≠ key b))
    (hocc : ∀ a ∈ l, key a ≠ key x) :
    (l ++ [x]).Pairwise (fun a b => key a ≠ key b) := by
  rw [List.pairwise_append]
  refine ⟨hinv, List.pairwise_singleton _ _, ?_⟩
  intro a ha b hb
  simp only [List.mem_singleton] at hb
  subst hb
  exact hocc a ha

theorem film_slot_free_of_find_none {l : List WeekMovieRow} {wid pos : Nat}
    (h : l.find? (fun r => r.week_id == wid && r.position == pos) = none) :
    ∀ a ∈ l, (a.week_id, a.position) ≠ (wid, pos) := by
  intro a ha
  have := List.find?_eq_none.mp h a ha
  simp only [Bool.and_eq_true, beq_iff_eq, not_and] at this
  intro hkey
  rw [Prod.mk.injEq] at hkey
  exact this hkey.1 hkey.2

theorem music_slot_free_of_find_none {l : List WeekAlbumRow} {wid pos : Nat}
    (h : l.find? (fun r => r.week_id == wid && r.position == pos) = none) :
    ∀ a ∈ l, (a.week_id, a.position) ≠ (wid, pos) := by
  intro a ha
  have := List.find?_eq_none.mp h a ha
  simp only [Bool.and_eq_true, beq_iff_eq, not_and] at this
  intro hkey
  rw [Prod.mk.injEq] at hkey
  exact this hkey.1 hkey.2

/-- C5: an `addSlot` call targeting an occupied position of its kind
returns a 409 Conflict and leaves the state — the existing slot row
included — unchanged; and both add operations preserve the at-most-one
slot-per-`(week, position)` invariant of each kind. -/
theorem slot_exclusivity :
    (∀ (st : WeeksSt) (fetch : Nat → FetchResult TMDBMovieDetails) (cu : UserP)
        (weekId tmdbId position now mfid sfid : Nat) (wk : WeekRow) (ex : WeekMovieRow),
      st.weeks.find? (fun w => w.id == weekId) = some wk →
      wk.user_id = some cu.id →
      st.weekMovies.find? (fun wm => wm.week_id == weekId && wm.position == position) =
        some ex →
      add_movie_to_week st fetch cu weekId tmdbId position now mfid sfid =
        (.httpError 409 ("Position " ++ toString position ++ " is already occupied"),
         st, 0)) ∧
    (∀ (st : WeeksSt) (fetch : String → FetchResult MBReleaseDetails) (cu : UserP)
        (weekId : Nat) (mbid : String) (position now afid sfid : Nat)
        (wk : WeekRow) (ex : WeekAlbumRow),
      st.weeks.find? (fun w => w.id == weekId) = some wk →
      wk.user_id = some cu.id →
      st.weekAlbums.find? (fun wa => wa.week_id == weekId && wa.position == position) =
        some ex →
      add_album_to_week st fetch cu weekId mbid position now afid sfid =
        (.httpError 409 ("Position " ++ toString position ++ " is already occupied"),
         st, 0)) ∧
    (∀ (st : WeeksSt) (fetch : Nat → FetchResult TMDBMovieDetails) (cu : UserP)
        (weekId tmdbId position now mfid sfid : Nat),
      filmSlotsConsistent st.weekMovies →
      filmSlotsConsistent
        (add_movie_to_week st fetch cu weekId tmdbId position now mfid sfid).2.1.weekMovies ∧
      (add_movie_to_week st fetch cu weekId tmdbId position now mfid sfid).2.1.weekAlbums =
        st.weekAlbums) ∧
    (∀ (st : WeeksSt) (fetch : String → FetchResult MBReleaseDetails) (cu : UserP)
        (weekId : Nat) (mbid : String) (position now afid sfid : Nat),
      musicSlotsConsistent st.weekAlbums →
      musicSlotsConsistent
        (add_album_to_week st fetch cu weekId mbid position now afid sfid).2.1.weekAlbums ∧
      (add_album_to_week st fetch cu weekId mbid position now afid sfid).2.1.weekMovies =
        st.weekMovies) := by
  refine ⟨?_, ?_, ?_, ?_⟩
  · intro st fetch cu weekId tmdbId position now mfid sfid wk ex hw huid hocc
    simp [add_movie_to_week, hw, huid, hocc]
  · intro st fetch cu weekId mbid position now afid sfid wk ex hw huid hocc
    simp [add_album_to_week, hw, huid, hocc]
  · intro st fetch cu weekId tmdbId position now mfid sfid hinv
    unfold add_movie_to_week
    split
    · exact ⟨hinv, rfl⟩
    split
    · exact ⟨hinv, rfl⟩
    split
    · exact ⟨hinv, rfl⟩
    next hocc =>
      split
      · exact ⟨pairwise_key_append hinv (film_slot_free_of_find_none hocc), rfl⟩
      split
      · exact ⟨pairwise_key_append hinv (film_slot_free_of_find_none hocc), rfl⟩
      · exact ⟨hinv, rfl⟩
      · exact ⟨hinv, rfl⟩
      · exact ⟨hinv, rfl⟩
  · intro st fetch cu weekId mbid position now afid sfid hinv
    unfold add_album_to_week
    split
    · exact ⟨hinv, rfl⟩
    split
    · exact ⟨hinv, rfl⟩
    split
    · exact ⟨hinv, rfl⟩
    next hocc =>
      split
      · exact ⟨pairwise_key_append hinv (music_slot_free_of_find_none hocc), rfl⟩
      split
      · exact ⟨pairwise_key_append hinv (music_slot_free_of_find_none hocc), rfl⟩
      · exact ⟨hinv, rfl⟩
      · exact ⟨hinv, rfl⟩
      · exact ⟨hinv, rfl⟩

/-- Witness for C5: a second film `addSlot` at an occupied position of a
concrete week answers 409 and leaves the state intact. -/
theorem slot_exclusivity_witness :
    add_movie_to_week
        { weeks := [{ id := 1, user_id := some 1, year := 2025, week_number := 3,
                      notes := none, created_at := 0, updated_at := 0 }],
          movies := [], albums := [],
          weekMovies := [{ id := 5, week_id := 1, movie_id := 9, position := 1,
                           added_at := 2 }],
          weekAlbums := [] }
        (fun _ => .notFound) ⟨1, "alice"⟩ 1 550 1 4 6 7 =
      (.httpError 409 "Position 1 is already occupied",
       { weeks := [{ id := 1, user_id := some 1, year := 2025, week_number := 3,
                     notes := none, created_at := 0, updated_at := 0 }],
         movies := [], albums := [],
         weekMovies := [{ id := 5, week_id := 1, movie_id := 9, position := 1,
                          added_at := 2 }],
         weekAlbums := [] }, 0) := by
  have h := slot_exclusivity.1
    { weeks := [{ id := 1, user_id := some 1, year := 2025, week_number := 3,
                  notes := none, created_at := 0, updated_at := 0 }],
      movies := [], albums := [],
      weekMovies := [{ id := 5, week_id := 1, movie_id := 9, position := 1,
                       added_at := 2 }],
      weekAlbums := [] }
    (fun _ => .notFound) ⟨1, "alice"⟩ 1 550 1 4 6 7
    { id := 1, user_id := some 1, year := 2025, week_number := 3,
      notes := none, created_at := 0, updated_at := 0 }
    { id := 5, week_id := 1, movie_id := 9, position := 1, added_at := 2 }
    (by decide) rfl (by decide)
  rw [h]
  decide

theorem findOrCreateArtist_albumArtists (st : AlbumCreditsSt) (a : MBArtist)
    (now nid : Nat) :
    (findOrCreateArtist st a now nid).2.1.albumArtists = st.albumArtists := by
  unfold findOrCreateArtist
  split <;> rfl

theorem cacheArtistCredits_orders (albumId now : Nat) :
    ∀ (cs : List MBArtistCredit) (idx nextId : Nat) (st : AlbumCreditsSt),
      ∃ rows : List AlbumArtistRow,
        (cacheArtistCredits albumId now idx nextId cs st).albumArtists =
          st.albumArtists ++ rows ∧
        rows.map (fun r => r.order) =
          ((cs.enumFrom idx).filter (fun p => p.2.artist.isSome)).map Prod.fst ∧
        (∀ r ∈ rows, r.album_id = albumId) := by
  intro cs
  induction cs with
  | nil =>
    intro idx nextId st
    exact ⟨[], by simp [cacheArtistCredits], by simp, by simp⟩
  | cons c rest ih =>
    intro idx nextId st
    cases hart : c.artist with
    | none =>
      obtain ⟨rows, h1, h2, h3⟩ := ih (idx + 1) nextId st
      refine ⟨rows, ?_, ?_, h3⟩
      · rw [show cacheArtistCredits albumId now idx nextId (c :: rest) st =
            cacheArtistCredits albumId now (idx + 1) nextId rest st from by
          simp [cacheArtistCredits, hart]]
        exact h1
      · rw [h2]
        simp [hart]
    | some a =>
      rcases hfc : findOrCreateArtist st a now nextId with ⟨artist, st1, nid1⟩
      have hst1 : st1.albumArtists = st.albumArtists := by
        have := findOrCreateArtist_albumArtists st a now nextId
        rw [hfc] at this
        exact this
      obtain ⟨rows, h1, h2, h3⟩ := ih (idx + 1) nid1
        { st1 with albumArtists := st1.albumArtists ++
            [{ album_id := albumId, artist_id := artist.id,
               join_phrase := c.joinphrase, order := idx, cached_at := now }] }
      refine ⟨{ album_id := albumId, artist_id := artist.id,
                join_phrase := c.joinphrase, order := idx, cached_at := now } :: rows,
        ?_, ?_, ?_⟩
      · rw [show cacheArtistCredits albumId now idx nextId (c :: rest) st =
            cacheArtistCredits albumId now (idx + 1) nid1 rest
              { st1 with albumArtists := st1.albumArtists ++
                  [{ album_id := albumId, artist_id := artist.id,
                     join_phrase := c.joinphrase, order := idx, cached_at := now }] } from by
          simp [cacheArtistCredits, hart, hfc]]
        rw [h1]
        simp [hst1]
      · simp only [List.map_cons, h2]
        simp [hart]
      · intro r hr
        rcases List.mem_cons.mp hr with hr | hr
        · rw [hr]
        · exact h3 r hr

theorem findOrCreatePerson_assoc (st : MovieCreditsSt) (tid : Nat) (nm : String)
    (pp kd : Option String) (now nid : Nat) :
    (findOrCreatePerson st tid nm pp kd now nid).2.1.movieCast = st.movieCast ∧
    (findOrCreatePerson st tid nm pp kd now nid).2.1.movieCrew = st.movieCrew := by
  unfold findOrCreatePerson
  split <;> exact ⟨rfl, rfl⟩

theorem cacheCastMembers_spec (movieId now : Nat) :
    ∀ (cs : List TMDBCastMember) (nextId : Nat) (st : MovieCreditsSt),
      ∃ rows : List MovieCastRow,
        (cacheCastMembers movieId now nextId cs st).1.movieCast =
          st.movieCast ++ rows ∧
        rows.map (fun r => (r.character, r.order)) =
          cs.map (fun c => (c.character, c.order)) ∧
        (cacheCastMembers movieId now nextId cs st).1.movieCrew = st.movieCrew := by
  intro cs
  induction cs with
  | nil =>
    intro nextId st
    exact ⟨[], by simp [cacheCastMembers], by simp, by simp [cacheCastMembers]⟩
  | cons cast_data rest ih =>
    intro nextId st
    rcases hfc : findOrCreatePerson st cast_data.id cast_data.name
        cast_data.profile_path cast_data.known_for_department now nextId with
      ⟨person, st1, nid1⟩
    have hassoc := findOrCreatePerson_assoc st cast_data.id cast_data.name
      cast_data.profile_path cast_data.known_for_department now nextId
    rw [hfc] at hassoc
    obtain ⟨rows, h1, h2, h3⟩ := ih nid1
      { st1 with movieCast := st1.movieCast ++
          [{ movie_id := movieId, person_id := person.id,
             character := cast_data.character, order := cast_data.order,
             cached_at := now }] }
    have hstep : cacheCastMembers movieId now nextId (cast_data :: rest) st =
        cacheCastMembers movieId now nid1 rest
          { st1 with movieCast := st1.movieCast ++
              [{ movie_id := movieId, person_id := person.id,
                 character := cast_data.character, order := cast_data.order,
                 cached_at := now }] } := by
      simp [cacheCastMembers, hfc]
    have hs1 : st1.movieCast = st.movieCast := hassoc.1
    have hs2 : st1.movieCrew = st.movieCrew := hassoc.2
    refine ⟨{ movie_id := movieId, person_id := person.id,
              character := cast_data.character, order := cast_data.order,
              cached_at := now } :: rows, ?_, ?_, ?_⟩
    · rw [hstep, h1]
      simp [hs1]
    · simp only [List.map_cons, h2]
    · rw [hstep, h3]
      exact hs2
  

/-- C7 (amended): when album credits are first persisted, each surviving
credit's `order` column records that credit's index in the (truncated)
upstream credit list — the upstream position, not the local insertion
order — but skipped credits advance the index, so the persisted orders
are the indices of the surviving credits rather than a list that always
starts at 0; persisted movie cast rows copy the upstream billing-order
field verbatim. -/
theorem album_credit_order_records_upstream_index :
    (∀ (st : AlbumCreditsSt) (albumId : Nat) (credits : List MBArtistCredit)
        (limit now nextId : Nat),
      ∃ rows : List AlbumArtistRow,
        (get_album_credits_fetch st albumId credits limit now nextId).albumArtists =
          st.albumArtists ++ rows ∧
        rows.map (fun r => r.order) =
          (((credits.take limit).enum).filter (fun p => p.2.artist.isSome)).map Prod.fst ∧
        (∀ r ∈ rows, r.album_id = albumId)) ∧
    (∀ (st : MovieCreditsSt) (movieId : Nat) (cs : List TMDBCastMember)
        (now nextId : Nat),
      ∃ rows : List MovieCastRow,
        (cacheCastMembers movieId now nextId cs st).1.movieCast =
          st.movieCast ++ rows ∧
        rows.map (fun r => r.order) = cs.map (fun c => c.order)) := by
  constructor
  · intro st albumId credits limit now nextId
    exact cacheArtistCredits_orders albumId now (credits.take limit) 0 nextId st
  · intro st movieId cs now nextId
    obtain ⟨rows, h1, h2, _⟩ := cacheCastMembers_spec movieId now cs nextId st
    refine ⟨rows, h1, ?_⟩
    have := congrArg (List.map Prod.snd) h2
    simpa [List.map_map, Function.comp] using this

/-- Witness for the amended C7 theorem on a concrete credit list whose
first entry survives: the persisted orders are [0, 1]. -/
theorem album_credit_order_records_upstream_index_witness :
    (get_album_credits_fetch { albums := [], artists := [], albumArtists := [] } 3
        [{ name := "A", joinphrase := some " & ",
           artist := some { id := "aa", name := "A", sort_name := none,
                            disambiguation := none, type := none, country := none } },
         { name := "B", joinphrase := none,
           artist := some { id := "bb", name := "B", sort_name := none,
                            disambiguation := none, type := none, country := none } }]
        25 0 1).albumArtists.map (fun r => r.order) = [0, 1] := by
  obtain ⟨rows, h1, h2, h3⟩ := album_credit_order_records_upstream_index.1
    { albums := [], artists := [], albumArtists := [] } 3
    [{ name := "A", joinphrase := some " & ",
       artist := some { id := "aa", name := "A", sort_name := none,
                        disambiguation := none, type := none, country := none } },
     { name := "B", joinphrase := none,
       artist := some { id := "bb", name := "B", sort_name := none,
                        disambiguation := none, type := none, country := none } }]
    25 0 1
  rw [h1]
  simp only [List.nil_append, h2]
  decide

/-- C7 counterexample: with an upstream credit list whose first entry
lacks full artist info, the single persisted association row carries
order 1 — the persisted order values of a non-empty credit list do not
start at 0. -/
theorem album_credit_order_not_zero_based :
    (get_album_credits_fetch { albums := [], artists := [], albumArtists := [] } 1
        [{ name := "Ghost", joinphrase := none, artist := none },
         { name := "B", joinphrase := none,
           artist := some { id := "bb", name := "B", sort_name := none,
                            disambiguation := none, type := none, country := none } }]
        25 0 1).albumArtists.map (fun r => r.order) = [1] ∧
    (get_album_credits_fetch { albums := [], artists := [], albumArtists := [] } 1
        [{ name := "Ghost", joinphrase := none, artist := none },
         { name := "B", joinphrase := none,
           artist := some { id := "bb", name := "B", sort_name := none,
                            disambiguation := none, type := none, country := none } }]
        25 0 1).albumArtists ≠ [] := by decide

theorem cacheCrewMembers_spec (movieId now : Nat) :
    ∀ (cs : List TMDBCrewMember) (nextId : Nat) (st : MovieCreditsSt),
      ∃ rows : List MovieCrewRow,
        (cacheCrewMembers movieId now nextId cs st).1.movieCrew =
          st.movieCrew ++ rows ∧
        rows.map (fun r => (r.department, r.job)) =
          cs.map (fun c => (c.department, c.job)) ∧
        (cacheCrewMembers movieId now nextId cs st).1.movieCast = st.movieCast := by
  intro cs
  induction cs with
  | nil =>
    intro nextId st
    exact ⟨[], by simp [cacheCrewMembers], by simp, by simp [cacheCrewMembers]⟩
  | cons crew_data rest ih =>
    intro nextId st
    rcases hfc : findOrCreatePerson st crew_data.id crew_data.name
        crew_data.profile_path crew_data.known_for_department now nextId with
      ⟨person, st1, nid1⟩
    have hassoc := findOrCreatePerson_assoc st crew_data.id crew_data.name
      crew_data.profile_path crew_data.known_for_department now nextId
    rw [hfc] at hassoc
    obtain ⟨rows, h1, h2, h3⟩ := ih nid1
      { st1 with movieCrew := st1.movieCrew ++
          [{ movie_id := movieId, person_id := person.id,
             department := crew_data.department, job := crew_data.job,
             cached_at := now }] }
    have hstep : cacheCrewMembers movieId now nextId (crew_data :: rest) st =
        cacheCrewMembers movieId now nid1 rest
          { st1 with movieCrew := st1.movieCrew ++
              [{ movie_id := movieId, person_id := person.id,
                 department := crew_data.department, job := crew_data.job,
                 cached_at := now }] } := by
      simp [cacheCrewMembers, hfc]
    have hs1 : st1.movieCast = st.movieCast := hassoc.1
    have hs2 : st1.movieCrew = st.movieCrew := hassoc.2
    refine ⟨{ movie_id := movieId, person_id := person.id,
              department := crew_data.department, job := crew_data.job,
              cached_at := now } :: rows, ?_, ?_, ?_⟩
    · rw [hstep, h1]
      simp [hs2]
    · simp only [List.map_cons, h2]
    · rw [hstep, h3]
      exact hs1

/-- C8: when movie credits are fetched from upstream, crew credits are
filtered to exactly the `key_jobs` allow-list before persistence and then
truncated to `limit`; cast credits are persisted unfiltered, truncated to
`limit` independently; no persisted crew row carries a job outside the
allow-list. -/
theorem movie_crew_allowlist_filtering :
    ∀ (st : MovieCreditsSt) (movieId : Nat) (credits : TMDBCreditsResponse)
        (limit now nextId : Nat),
      ∃ (castRows : List MovieCastRow) (crewRows : List MovieCrewRow),
        (get_movie_credits_fetch st movieId credits limit now nextId).movieCast =
          st.movieCast ++ castRows ∧
        (get_movie_credits_fetch st movieId credits limit now nextId).movieCrew =
          st.movieCrew ++ crewRows ∧
        castRows.map (fun r => (r.character, r.order)) =
          (credits.cast.take limit).map (fun c => (c.character, c.order)) ∧
        crewRows.map (fun r => (r.department, r.job)) =
          ((credits.crew.filter (fun c => jobAllowed c.job)).take limit).map
            (fun c => (c.department, c.job)) ∧
        (∀ j : String, key_jobs.contains j = false →
          ∀ r ∈ crewRows, r.job ≠ some j) := by
  intro st movieId credits limit now nextId
  rcases hcast : cacheCastMembers movieId now nextId (credits.cast.take limit) st with
    ⟨st1, nid1⟩
  have hunfold : get_movie_credits_fetch st movieId credits limit now nextId =
      (cacheCrewMembers movieId now nid1
        ((credits.crew.filter (fun c => jobAllowed c.job)).take limit) st1).1 := by
    simp [get_movie_credits_fetch, hcast]
  obtain ⟨castRows, hc1, hc2, hc3⟩ :=
    cacheCastMembers_spec movieId now (credits.cast.take limit) nextId st
  rw [hcast] at hc1 hc3
  obtain ⟨crewRows, hw1, hw2, hw3⟩ :=
    cacheCrewMembers_spec movieId now
      ((credits.crew.filter (fun c => jobAllowed c.job)).take limit) nid1 st1
  refine ⟨castRows, crewRows, ?_, ?_, hc2, hw2, ?_⟩
  · rw [hunfold, hw3, hc1]
  · rw [hunfold, hw1, hc3]
  · intro j hj r hr hjob
    have hmem : (r.department, r.job) ∈ crewRows.map (fun r => (r.department, r.job)) :=
      List.mem_map_of_mem _ hr
    rw [hw2] at hmem
    obtain ⟨c, hc, heq⟩ := List.mem_map.mp hmem
    have hcjob : c.job = r.job := (Prod.mk.injEq _ _ _ _).mp heq |>.2
    have hcfilter : c ∈ credits.crew.filter (fun c => jobAllowed c.job) :=
      List.take_subset _ _ hc
    have hallowed : jobAllowed c.job = true := (List.mem_filter.mp hcfilter).2
    rw [hcjob, hjob] at hallowed
    simp only [jobAllowed] at hallowed
    rw [hj] at hallowed
    cases hallowed

/-- Witness for C8: a crew list holding only a "Gaffer" yields zero
persisted crew rows, while the cast member is persisted. -/
theorem movie_crew_allowlist_filtering_witness :
    (get_movie_credits_fetch { movies := [], people := [], movieCast := [],
                               movieCrew := [] } 1
        { id := 550,
          cast := [{ id := 819, name := "Edward Norton",
                     character := some "The Narrator", order := 0,
                     profile_path := none, known_for_department := none }],
          crew := [{ id := 999, name := "Some Gaffer",
                     department := some "Lighting", job := some "Gaffer",
                     profile_path := none, known_for_department := none }] }
        10 0 1).movieCrew = [] ∧
    (get_movie_credits_fetch { movies := [], people := [], movieCast := [],
                               movieCrew := [] } 1
        { id := 550,
          cast := [{ id := 819, name := "Edward Norton",
                     character := some "The Narrator", order := 0,
                     profile_path := none, known_for_department := none }],
          crew := [{ id := 999, name := "Some Gaffer",
                     department := some "Lighting", job := some "Gaffer",
                     profile_path := none, known_for_department := none }] }
        10 0 1).movieCast.length = 1 := by
  obtain ⟨castRows, crewRows, h1, h2, h3, h4, h5⟩ := movie_crew_allowlist_filtering
    { movies := [], people := [], movieCast := [], movieCrew := [] } 1
    { id := 550,
      cast := [{ id := 819, name := "Edward Norton",
                 character := some "The Narrator", order := 0,
                 profile_path := none, known_for_department := none }],
      crew := [{ id := 999, name := "Some Gaffer",
                 department := some "Lighting", job := some "Gaffer",
                 profile_path := none, known_for_department := none }] }
    10 0 1
  constructor
  · rw [h2]
    have : crewRows.map (fun r => (r.department, r.job)) = [] := by
      rw [h4]
      decide
    rw [List.map_eq_nil_iff] at this
    simp [this]
  · rw [h1]
    have : castRows.length = 1 := by
      have := congrArg List.length h3
      simpa using this
    simp [this]
